import Mathlib

/-! # OMAP3 resource controllers (`arch/arm/mach-omap2/resource34xx.c`)

A shallow embedding of the latency, power-domain latency, operating-point (OPP)
and frequency resource controllers, followed by theorems about them.

Modelling conventions
* `u32` / `unsigned long` quantities are `Nat`; the only arithmetic the file
  performs on them that can leave the 32-bit range (`tput * 1000` in `set_opp`)
  is reduced modulo `2^32` explicitly (ARM, 32-bit `unsigned long`).
* `int` quantities are `Int`; the one signed addition of the file
  (`vddN_lock += delta`) is reduced into the 32-bit two's-complement range by
  `wrap_int`.
* Every call to a function defined outside the file appends one `Event` to the
  trace of the state and threads an abstract external world `W`; results of
  such calls and the external globals (`curr_vdd1_prcm_set`, `enable_off_mode`, ...)
  are read from that world through `Services`.
* `resource_request` and `resource_release` go through the dispatch layer, which
  is outside the file: each is one event, and whatever the dispatch layer does
  on its behalf (a nested call into a controller included) belongs to the
  external world, which does not write the record of the calling domain.
* Constants, macros and helpers that live in headers or other files
  (`VDD1_OPP`, `MAX_VDD1_OPP`, `ID_VDD`, `get_freq`, the OPP tables, the
  `CONFIG_*` switches, ...) are fields of `Config`.
* Resource records live in a heap `mem : Ptr → shared_resource`; a `NULL`
  static pointer is `none`, and dereferencing it (or reading `resource_data`
  at the wrong type) makes the operation return `none`.
-/

namespace Resource34xx

/-! ## Data model -/

/-- Addresses of records, clocks and power domains. -/
abbrev Ptr := Nat

/-- One entry of an operating-point table (`struct omap_opp`). -/
structure omap_opp where
  rate : Nat
  opp_id : Nat
  vsel : Nat

/-- An operating-point table, read by index (`mpu_opps[i]`, `(l3_opps + i)->rate`). -/
abbrev OppTable := Nat → omap_opp

/-- The per-domain latency database (`struct pd_latency_db`). -/
structure pd_latency_db where
  pwrdm_name : String
  pd : Ptr
  latency : Nat → Nat

/-- What `resource_data` points to, by the type the controller reads it at. -/
inductive ResourceData where
  | null : ResourceData
  | byte (v : Nat) : ResourceData
  | pd_lat (db : pd_latency_db) : ResourceData
  | cstr (str : String) : ResourceData

/-- The resource record (`struct shared_resource`), restricted to the fields the file uses. -/
structure shared_resource where
  name : String
  no_of_users : Nat
  curr_level : Nat
  resource_data : ResourceData

/-- The three static `struct device` objects of the file, told apart by address. -/
inductive Device where
  | vdd2_dev : Device
  | dummy_mpu_dev : Device
  | dummy_dsp_dev : Device
  deriving DecidableEq, Repr

/-- The phase argument of `cpufreq_notify_transition`. -/
inductive CpufreqPhase where
  | CPUFREQ_PRECHANGE : CpufreqPhase
  | CPUFREQ_POSTCHANGE : CpufreqPhase
  deriving DecidableEq, Repr

/-- One call that leaves the file. The QoS calls always pass the class
`PM_QOS_CPU_DMA_LATENCY`, which is therefore not recorded. -/
inductive Event where
  | clk_get (id : String) : Event
  | clk_set_rate (clk : Ptr) (rate : Nat) : Event
  | sr_voltagescale_vcbypass (t_opp : Nat) (vsel : Nat) : Event
  | resource_request (name : String) (dev : Device) (level : Nat) : Event
  | resource_release (name : String) (dev : Device) : Event
  | cpufreq_notify_transition (f_old : Nat) (f_new : Nat) (cpu : Nat) (phase : CpufreqPhase) : Event
  | pm_qos_add_requirement (name : String) (value : Nat) : Event
  | pm_qos_update_requirement (name : String) (value : Nat) : Event
  | pm_qos_remove_requirement (name : String) : Event
  | pwrdm_lookup (name : String) : Event
  | set_pwrdm_state (pwrdm : Ptr) (state : Nat) : Event
  deriving DecidableEq, Repr

/-- Constants, macros, build switches, pure helpers and read-only tables that the
file takes from headers and other translation units. -/
structure Config where
  VDD1_OPP : Int
  VDD2_OPP : Int
  OPP_IGNORE_LOCK : Int
  EINVAL : Int
  MAX_VDD1_OPP : Nat
  MAX_VDD2_OPP : Nat
  PRCM_VDD1 : Nat
  PRCM_VDD2 : Nat
  ID_VDD : Nat → Nat
  ID_OPP_NO : Nat → Nat
  RES_DEFAULTLEVEL : Nat
  PD_LATENCY_OFF : Nat
  PD_LATENCY_RET : Nat
  PD_LATENCY_MAXLEVEL : Nat
  CONFIG_CPU_FREQ : Bool
  CONFIG_OMAP_SMARTREFLEX : Bool
  /-- The call `get_freq(tbl + off, opp)` is `get_freq tbl off opp`. -/
  get_freq : OppTable → Nat → Nat → Nat
  /-- The call `get_opp(tbl + off, freq)` is `get_opp tbl off freq`. -/
  get_opp : OppTable → Nat → Nat → Nat
  mpu_opps : Option OppTable
  dsp_opps : Option OppTable
  l3_opps : Option OppTable

/-- The services the file calls and the external globals it reads, over an
abstract external world `W`. Results the file discards are not modelled. -/
structure Services (W : Type) where
  clk_get : String → W → Ptr × W
  clk_set_rate : Ptr → Nat → W → Int × W
  sr_voltagescale_vcbypass : Nat → Nat → W → W
  resource_request : String → Device → Nat → W → W
  resource_release : String → Device → W → W
  cpufreq_notify_transition : Nat → Nat → Nat → CpufreqPhase → W → W
  pm_qos_add_requirement : String → Nat → W → Int × W
  pm_qos_update_requirement : String → Nat → W → Int × W
  pm_qos_remove_requirement : String → W → W
  pwrdm_lookup : String → W → Ptr × W
  set_pwrdm_state : Ptr → Nat → W → W
  curr_vdd1_prcm_set : W → omap_opp
  curr_vdd2_prcm_set : W → omap_opp
  enable_off_mode : W → Bool

/-- The resource heap, the file's static variables, the external world and the
trace of calls that left the file. -/
structure State (W : Type) where
  mem : Ptr → shared_resource
  vdd1_clk : Ptr
  vdd2_clk : Ptr
  vdd1_resp : Option Ptr
  vdd2_resp : Option Ptr
  vdd1_lock : Int
  vdd2_lock : Int
  world : W
  trace : List Event

variable {W : Type}

/-- Reduction of a mathematical integer into the range of a 32-bit `int`. -/
def wrap_int (v : Int) : Int := (v + 2147483648) % 4294967296 - 2147483648

/-- Reduction of a natural number into the range of a 32-bit `unsigned long`. -/
def wrap_ulong (v : Nat) : Nat := v % 4294967296

/-- Smallest value of a 32-bit `int`. -/
def INT_MIN : Int := -2147483648

/-- Largest value of a 32-bit `int`. -/
def INT_MAX : Int := 2147483647

/-- Record an external call and the world it leaves behind. -/
def State.call (s : State W) (e : Event) (w : W) : State W :=
  { s with world := w, trace := s.trace ++ [e] }

/-- The assignment `resp->curr_level = v`. -/
def State.set_curr_level (s : State W) (resp : Ptr) (v : Nat) : State W :=
  { s with mem := Function.update s.mem resp { s.mem resp with curr_level := v } }

/-- The assignment `resp->no_of_users = v`. -/
def State.set_no_of_users (s : State W) (resp : Ptr) (v : Nat) : State W :=
  { s with mem := Function.update s.mem resp { s.mem resp with no_of_users := v } }

/-- A store through `resp->resource_data`. -/
def State.set_resource_data (s : State W) (resp : Ptr) (d : ResourceData) : State W :=
  { s with mem := Function.update s.mem resp { s.mem resp with resource_data := d } }

/-! ## External calls -/

/-- The call `clk_set_rate(clk, rate)`: its outcome and the state after it. -/
def do_clk_set_rate (x : Services W) (clk : Ptr) (rate : Nat) (s : State W) : Int × State W :=
  ((x.clk_set_rate clk rate s.world).1,
    s.call (Event.clk_set_rate clk rate) (x.clk_set_rate clk rate s.world).2)

/-- The call `sr_voltagescale_vcbypass(t_opp, vsel)`. -/
def do_sr_voltagescale_vcbypass (x : Services W) (t_opp vsel : Nat) (s : State W) : State W :=
  s.call (Event.sr_voltagescale_vcbypass t_opp vsel) (x.sr_voltagescale_vcbypass t_opp vsel s.world)

/-- The call `resource_request(name, dev, level)`. -/
def do_resource_request (x : Services W) (name : String) (dev : Device) (level : Nat)
    (s : State W) : State W :=
  s.call (Event.resource_request name dev level) (x.resource_request name dev level s.world)

/-- The call `resource_release(name, dev)`. -/
def do_resource_release (x : Services W) (name : String) (dev : Device) (s : State W) : State W :=
  s.call (Event.resource_release name dev) (x.resource_release name dev s.world)

/-- The call `cpufreq_notify_transition(&freqs, phase)`. -/
def do_cpufreq_notify_transition (x : Services W) (f_old f_new cpu : Nat) (phase : CpufreqPhase)
    (s : State W) : State W :=
  s.call (Event.cpufreq_notify_transition f_old f_new cpu phase)
    (x.cpufreq_notify_transition f_old f_new cpu phase s.world)

/-- The call `set_pwrdm_state(pwrdm, state)`. -/
def do_set_pwrdm_state (x : Services W) (pwrdm : Ptr) (state : Nat) (s : State W) : State W :=
  s.call (Event.set_pwrdm_state pwrdm state) (x.set_pwrdm_state pwrdm state s.world)

/-- The call `pm_qos_add_requirement(PM_QOS_CPU_DMA_LATENCY, name, value)`. -/
def do_pm_qos_add_requirement (x : Services W) (name : String) (value : Nat) (s : State W) :
    Int × State W :=
  ((x.pm_qos_add_requirement name value s.world).1,
    s.call (Event.pm_qos_add_requirement name value) (x.pm_qos_add_requirement name value s.world).2)

/-- The call `pm_qos_update_requirement(PM_QOS_CPU_DMA_LATENCY, name, value)`. -/
def do_pm_qos_update_requirement (x : Services W) (name : String) (value : Nat) (s : State W) :
    Int × State W :=
  ((x.pm_qos_update_requirement name value s.world).1,
    s.call (Event.pm_qos_update_requirement name value)
      (x.pm_qos_update_requirement name value s.world).2)

/-- The call `pm_qos_remove_requirement(PM_QOS_CPU_DMA_LATENCY, name)`. -/
def do_pm_qos_remove_requirement (x : Services W) (name : String) (s : State W) : State W :=
  s.call (Event.pm_qos_remove_requirement name) (x.pm_qos_remove_requirement name s.world)

/-- The call `pwrdm_lookup(name)`: the handle found and the state after it. -/
def do_pwrdm_lookup (x : Services W) (name : String) (s : State W) : Ptr × State W :=
  ((x.pwrdm_lookup name s.world).1, s.call (Event.pwrdm_lookup name) (x.pwrdm_lookup name s.world).2)

/-- The call `clk_get(NULL, id)`: the handle found and the state after it. -/
def do_clk_get (x : Services W) (id : String) (s : State W) : Ptr × State W :=
  ((x.clk_get id s.world).1, s.call (Event.clk_get id) (x.clk_get id s.world).2)

/-! ## Latency resource (lines 36-80) -/

/-- `init_latency`: no users, default level, flag byte cleared. -/
def init_latency (c : Config) (resp : Ptr) (s : State W) : Option (State W) :=
  let s1 := s.set_no_of_users resp 0
  let s2 := s1.set_curr_level resp c.RES_DEFAULTLEVEL
  match (s2.mem resp).resource_data with
  | ResourceData.byte _ => some (s2.set_resource_data resp (ResourceData.byte 0))
  | _ => none

/-- `set_latency`: adds, updates or removes the CPU_DMA_LATENCY requirement. -/
def set_latency (c : Config) (x : Services W) (resp : Ptr) (latency : Nat) (s : State W) :
    Option (Int × State W) :=
  if (s.mem resp).curr_level = latency then some (0, s)
  else
    let s1 := s.set_curr_level resp latency
    match (s1.mem resp).resource_data with
    | ResourceData.byte pm_qos_req_added =>
      if latency = c.RES_DEFAULTLEVEL ∧ pm_qos_req_added ≠ 0 then
        some (0, (do_pm_qos_remove_requirement x (s1.mem resp).name s1).set_resource_data resp
          (ResourceData.byte 0))
      else if pm_qos_req_added ≠ 0 then
        some (do_pm_qos_update_requirement x (s1.mem resp).name latency s1)
      else
        some (do_pm_qos_add_requirement x (s1.mem resp).name latency
          (s1.set_resource_data resp (ResourceData.byte 1)))
    | _ => none

/-! ## Power-domain latency resource (lines 88-137) -/

/-- `init_pd_latency`: initial level by `enable_off_mode`, domain looked up and programmed. -/
def init_pd_latency (c : Config) (x : Services W) (resp : Ptr) (s : State W) : Option (State W) :=
  let s1 := s.set_no_of_users resp 0
  let s2 := s1.set_curr_level resp
    (if x.enable_off_mode s1.world then c.PD_LATENCY_OFF else c.PD_LATENCY_RET)
  match (s2.mem resp).resource_data with
  | ResourceData.pd_lat pd_lat_db =>
    let r := do_pwrdm_lookup x pd_lat_db.pwrdm_name s2
    let s3 := r.2.set_resource_data resp (ResourceData.pd_lat { pd_lat_db with pd := r.1 })
    some (do_set_pwrdm_state x r.1 (s3.mem resp).curr_level s3)
  | _ => none

/-- The `for` loop of `set_pd_latency` with `n` iterations left, at index `ind`:
the value of `pd_lat_level` when the loop is left. -/
def set_pd_latency_scan (latency_db : Nat → Nat) (latency : Nat) (pd_lat_level : Nat) :
    Nat → Nat → Nat
  | 0, _ => pd_lat_level
  | n + 1, ind =>
    if latency_db ind < latency then ind
    else set_pd_latency_scan latency_db latency pd_lat_level n (ind + 1)

/-- `set_pd_latency`: maps the latency to a power-domain state and programs it. -/
def set_pd_latency (c : Config) (x : Services W) (resp : Ptr) (latency : Nat) (s : State W) :
    Option (Int × State W) :=
  match (s.mem resp).resource_data with
  | ResourceData.pd_lat pd_lat_db =>
    let pwrdm := pd_lat_db.pd
    let scanned := set_pd_latency_scan pd_lat_db.latency latency c.PD_LATENCY_OFF
      c.PD_LATENCY_MAXLEVEL 0
    let pd_lat_level :=
      if x.enable_off_mode s.world = false ∧ scanned = c.PD_LATENCY_OFF then c.PD_LATENCY_RET
      else scanned
    let s1 := s.set_curr_level resp pd_lat_level
    some (0, do_set_pwrdm_state x pwrdm pd_lat_level s1)
  | _ => none

/-! ## Operating-point resource (lines 139-335) -/

/-- `init_opp`: records the boot-time level, the clock and the resource pointer. -/
def init_opp (c : Config) (x : Services W) (resp : Ptr) (s : State W) : State W :=
  let s1 := s.set_no_of_users resp 0
  match c.mpu_opps, c.dsp_opps, c.l3_opps with
  | some _, some _, some _ =>
    if (s1.mem resp).name = "vdd1_opp" then
      let s2 := s1.set_curr_level resp (x.curr_vdd1_prcm_set s1.world).opp_id
      let r := do_clk_get x "virt_vdd1_prcm_set" s2
      { r.2 with vdd1_clk := r.1, vdd1_resp := some resp }
    else if (s1.mem resp).name = "vdd2_opp" then
      let s2 := s1.set_curr_level resp (x.curr_vdd2_prcm_set s1.world).opp_id
      let r := do_clk_get x "virt_vdd2_prcm_set" s2
      { r.2 with vdd2_clk := r.1, vdd2_resp := some resp }
    else s1
  | _, _, _ => s1

/-- `resource_access_opp_lock`: adds `delta` to the lock count of the domain. -/
def resource_access_opp_lock (c : Config) (res : Int) (delta : Int) (s : State W) :
    Int × State W :=
  if res = c.VDD1_OPP then
    (wrap_int (s.vdd1_lock + delta), { s with vdd1_lock := wrap_int (s.vdd1_lock + delta) })
  else if res = c.VDD2_OPP then
    (wrap_int (s.vdd2_lock + delta), { s with vdd2_lock := wrap_int (s.vdd2_lock + delta) })
  else (-c.EINVAL, s)

/-- Lines 212-257 of `resource_set_opp_level`: the transition of the compute domain. -/
def set_vdd1_level (c : Config) (x : Services W) (mpu_opps : OppTable) (resp : Ptr)
    (target_level : Nat) (s : State W) : Int × State W :=
  let mpu_old_freq := c.get_freq mpu_opps c.MAX_VDD1_OPP (x.curr_vdd1_prcm_set s.world).opp_id
  let mpu_freq := c.get_freq mpu_opps c.MAX_VDD1_OPP target_level
  let s1 :=
    if c.CONFIG_CPU_FREQ then
      do_cpufreq_notify_transition x (mpu_old_freq / 1000) (mpu_freq / 1000) 0
        CpufreqPhase.CPUFREQ_PRECHANGE s
    else s
  let t_opp := c.ID_VDD c.PRCM_VDD1 ||| c.ID_OPP_NO (mpu_opps target_level).opp_id
  let s2 :=
    if (mpu_opps target_level).opp_id ≥ 3 then
      do_resource_request x "vdd2_opp" Device.vdd2_dev 400000 s1
    else s1
  let s3 :=
    if (s2.mem resp).curr_level > target_level then
      let s3a := (do_clk_set_rate x s2.vdd1_clk mpu_freq s2).2
      if c.CONFIG_OMAP_SMARTREFLEX then
        do_sr_voltagescale_vcbypass x t_opp (mpu_opps target_level).vsel s3a
      else s3a
    else
      let s3a :=
        if c.CONFIG_OMAP_SMARTREFLEX then
          do_sr_voltagescale_vcbypass x t_opp (mpu_opps target_level).vsel s2
        else s2
      (do_clk_set_rate x s3a.vdd1_clk mpu_freq s3a).2
  let s4 :=
    if (mpu_opps target_level).opp_id < 3 then
      do_resource_release x "vdd2_opp" Device.vdd2_dev s3
    else s3
  let s5 := s4.set_curr_level resp (x.curr_vdd1_prcm_set s4.world).opp_id
  let s6 :=
    if c.CONFIG_CPU_FREQ then
      do_cpufreq_notify_transition x (mpu_old_freq / 1000) (mpu_freq / 1000) 0
        CpufreqPhase.CPUFREQ_POSTCHANGE s5
    else s5
  (0, s6)

/-- Lines 261-293 of `resource_set_opp_level`: the transition of the interconnect domain. -/
def set_vdd2_level (c : Config) (x : Services W) (l3_opps : OppTable) (resp : Ptr)
    (target_level : Nat) (s : State W) : Int × State W :=
  let l3_freq := c.get_freq l3_opps c.MAX_VDD2_OPP target_level
  let t_opp := c.ID_VDD c.PRCM_VDD2 ||| c.ID_OPP_NO (l3_opps target_level).opp_id
  if (s.mem resp).curr_level > target_level then
    let r := do_clk_set_rate x s.vdd2_clk l3_freq s
    if r.1 ≠ 0 then (r.1, r.2)
    else
      let s2 :=
        if c.CONFIG_OMAP_SMARTREFLEX then
          do_sr_voltagescale_vcbypass x t_opp (l3_opps target_level).vsel r.2
        else r.2
      (0, s2.set_curr_level resp (x.curr_vdd2_prcm_set s2.world).opp_id)
  else
    let s1 :=
      if c.CONFIG_OMAP_SMARTREFLEX then
        do_sr_voltagescale_vcbypass x t_opp (l3_opps target_level).vsel s
      else s
    let r := do_clk_set_rate x s1.vdd2_clk l3_freq s1
    if r.1 ≠ 0 then
      if c.CONFIG_OMAP_SMARTREFLEX then
        (r.1, do_sr_voltagescale_vcbypass x
          (c.ID_VDD c.PRCM_VDD2 ||| c.ID_OPP_NO (l3_opps (r.2.mem resp).curr_level).opp_id)
          (l3_opps (r.2.mem resp).curr_level).vsel r.2)
      else (r.1, r.2)
    else (0, r.2.set_curr_level resp (x.curr_vdd2_prcm_set r.2.world).opp_id)

/-- `resource_set_opp_level`: the OPP transition of one domain. `none` is the
dereference of a `NULL` `vdd1_resp` / `vdd2_resp` at line 203. -/
def resource_set_opp_level (c : Config) (x : Services W) (res : Int) (target_level : Nat)
    (flags : Int) (s : State W) : Option (Int × State W) :=
  let resp_sel : Option (Option Ptr) :=
    if res = c.VDD1_OPP then some s.vdd1_resp
    else if res = c.VDD2_OPP then some s.vdd2_resp
    else none
  match resp_sel with
  | none => some (0, s)
  | some none => none
  | some (some resp) =>
    if (s.mem resp).curr_level = target_level then some (0, s)
    else
      match c.mpu_opps, c.dsp_opps, c.l3_opps with
      | some mpu_opps, some _, some l3_opps =>
        if res = c.VDD1_OPP then
          if flags ≠ c.OPP_IGNORE_LOCK ∧ s.vdd1_lock ≠ 0 then some (0, s)
          else some (set_vdd1_level c x mpu_opps resp target_level s)
        else
          if flags ≠ c.OPP_IGNORE_LOCK ∧ s.vdd2_lock ≠ 0 then some (0, s)
          else some (set_vdd2_level c x l3_opps resp target_level s)
      | _, _, _ => some (0, s)

/-- The `for` loop of `set_opp` with `n` iterations left, at index `ind`: the
values of `ind` and `target_level` when the loop is left, or `none` when a
`NULL` table is read. -/
def set_opp_scan (l3_opps : Option OppTable) (req_l3_freq : Nat) :
    Nat → Nat → Nat → Option (Nat × Nat)
  | 0, ind, target_level => some (ind, target_level)
  | n + 1, ind, target_level =>
    match l3_opps with
    | none => none
    | some tbl =>
      if (tbl ind).rate ≥ req_l3_freq then some (ind, ind)
      else set_opp_scan l3_opps req_l3_freq n (ind + 1) target_level

/-- `set_opp`: the `set_level` operation of both OPP resources. -/
def set_opp (c : Config) (x : Services W) (resp : Ptr) (target_level : Nat) (s : State W) :
    Option (Int × State W) :=
  if some resp = s.vdd1_resp then
    (resource_set_opp_level c x c.VDD1_OPP target_level 0 s).map fun r => (0, r.2)
  else if some resp = s.vdd2_resp then
    let tput := target_level
    let req_l3_freq := wrap_ulong (tput * 1000) / 4
    match set_opp_scan c.l3_opps req_l3_freq (c.MAX_VDD2_OPP + 1 - 2) 2 target_level with
    | none => none
    | some (ind, scanned) =>
      let target := if ind > c.MAX_VDD2_OPP then ind - 1 else scanned
      (resource_set_opp_level c x c.VDD2_OPP target 0 s).map fun r => (0, r.2)
  else some (0, s)

/-- `validate_opp`: accepts every level. -/
def validate_opp (_resp : Ptr) (_target_level : Nat) (s : State W) : Int × State W := (0, s)

/-! ## Frequency resource (lines 340-383) -/

/-- `init_freq`: seeds the level with the boot-time rate. -/
def init_freq (c : Config) (x : Services W) (resp : Ptr) (s : State W) : State W :=
  let s1 := s.set_no_of_users resp 0
  match c.mpu_opps, c.dsp_opps with
  | some _, some dsp_opps =>
    if (s1.mem resp).name = "mpu_freq" then
      s1.set_curr_level resp (x.curr_vdd1_prcm_set s1.world).rate
    else if (s1.mem resp).name = "dsp_freq" then
      s1.set_curr_level resp
        (c.get_freq dsp_opps c.MAX_VDD2_OPP (x.curr_vdd1_prcm_set s1.world).opp_id)
    else s1
  | _, _ => s1

/-- `set_freq`: requests the OPP that achieves the frequency and records the frequency. -/
def set_freq (c : Config) (x : Services W) (resp : Ptr) (target_level : Nat) (s : State W) :
    Int × State W :=
  match c.mpu_opps, c.dsp_opps with
  | some mpu_opps, some dsp_opps =>
    let s1 :=
      if (s.mem resp).name = "mpu_freq" then
        do_resource_request x "vdd1_opp" Device.dummy_mpu_dev
          (c.get_opp mpu_opps c.MAX_VDD1_OPP target_level) s
      else if (s.mem resp).name = "dsp_freq" then
        do_resource_request x "vdd1_opp" Device.dummy_dsp_dev
          (c.get_opp dsp_opps c.MAX_VDD1_OPP target_level) s
      else s
    (0, s1.set_curr_level resp target_level)
  | _, _ => (0, s)

/-- `validate_freq`: accepts every level. -/
def validate_freq (_resp : Ptr) (_target_level : Nat) (s : State W) : Int × State W := (0, s)

/-! ## Sequences of calls -/

/-- One call into the file. -/
inductive Op where
  | init_latency (resp : Ptr) : Op
  | set_latency (resp : Ptr) (latency : Nat) : Op
  | init_pd_latency (resp : Ptr) : Op
  | set_pd_latency (resp : Ptr) (latency : Nat) : Op
  | init_opp (resp : Ptr) : Op
  | resource_access_opp_lock (res : Int) (delta : Int) : Op
  | resource_set_opp_level (res : Int) (target_level : Nat) (flags : Int) : Op
  | set_opp (resp : Ptr) (target_level : Nat) : Op
  | validate_opp (resp : Ptr) (target_level : Nat) : Op
  | init_freq (resp : Ptr) : Op
  | set_freq (resp : Ptr) (target_level : Nat) : Op
  | validate_freq (resp : Ptr) (target_level : Nat) : Op

/-- The state one call leaves behind (`none` when the call faults). -/
def Op.run (c : Config) (x : Services W) : Op → State W → Option (State W)
  | Op.init_latency resp, s => Resource34xx.init_latency c resp s
  | Op.set_latency resp latency, s => (Resource34xx.set_latency c x resp latency s).map Prod.snd
  | Op.init_pd_latency resp, s => Resource34xx.init_pd_latency c x resp s
  | Op.set_pd_latency resp latency, s => (Resource34xx.set_pd_latency c x resp latency s).map Prod.snd
  | Op.init_opp resp, s => some (Resource34xx.init_opp c x resp s)
  | Op.resource_access_opp_lock res delta, s => some (Resource34xx.resource_access_opp_lock c res delta s).2
  | Op.resource_set_opp_level res target_level flags, s =>
    (Resource34xx.resource_set_opp_level c x res target_level flags s).map Prod.snd
  | Op.set_opp resp target_level, s => (Resource34xx.set_opp c x resp target_level s).map Prod.snd
  | Op.validate_opp resp target_level, s => some (Resource34xx.validate_opp resp target_level s).2
  | Op.init_freq resp, s => some (Resource34xx.init_freq c x resp s)
  | Op.set_freq resp target_level, s => some (Resource34xx.set_freq c x resp target_level s).2
  | Op.validate_freq resp target_level, s => some (Resource34xx.validate_freq resp target_level s).2

/-- The state a sequence of calls leaves behind. -/
def run_ops (c : Config) (x : Services W) : List Op → State W → Option (State W)
  | [], s => some s
  | op :: ops, s => (op.run c x s).bind (run_ops c x ops)

/-- The state before any call: the file's statics are zero-initialised. -/
def initial_state (mem : Ptr → shared_resource) (w : W) : State W :=
  { mem := mem, vdd1_clk := 0, vdd2_clk := 0, vdd1_resp := none, vdd2_resp := none,
    vdd1_lock := 0, vdd2_lock := 0, world := w, trace := [] }

/-- The `delta` a call adds to `vdd1_lock`. -/
def Op.vdd1_delta (c : Config) : Op → Int
  | Op.resource_access_opp_lock res delta => if res = c.VDD1_OPP then delta else 0
  | _ => 0

/-- The `delta` a call adds to `vdd2_lock`. -/
def Op.vdd2_delta (c : Config) : Op → Int
  | Op.resource_access_opp_lock res delta =>
    if res = c.VDD1_OPP then 0 else if res = c.VDD2_OPP then delta else 0
  | _ => 0

/-- Sum of the deltas a sequence of calls adds to `vdd1_lock`. -/
def vdd1_delta_sum (c : Config) (ops : List Op) : Int := (ops.map (Op.vdd1_delta c)).sum

/-- Sum of the deltas a sequence of calls adds to `vdd2_lock`. -/
def vdd2_delta_sum (c : Config) (ops : List Op) : Int := (ops.map (Op.vdd2_delta c)).sum

/-! ## Observations on traces -/

/-- Whether the event is a `clk_set_rate` call. -/
def Event.is_clk_set_rate : Event → Bool
  | Event.clk_set_rate _ _ => true
  | _ => false

/-- Whether the event is a `sr_voltagescale_vcbypass` call. -/
def Event.is_voltagescale : Event → Bool
  | Event.sr_voltagescale_vcbypass _ _ => true
  | _ => false

/-- Whether the event is a `resource_request` call. -/
def Event.is_resource_request : Event → Bool
  | Event.resource_request _ _ _ => true
  | _ => false

/-- Whether the event is a `resource_release` call. -/
def Event.is_resource_release : Event → Bool
  | Event.resource_release _ _ => true
  | _ => false

/-- Whether the event is a `cpufreq_notify_transition` call. -/
def Event.is_cpufreq_notify : Event → Bool
  | Event.cpufreq_notify_transition _ _ _ _ => true
  | _ => false

/-- Whether the event is one of the three QoS calls. -/
def Event.is_pm_qos : Event → Bool
  | Event.pm_qos_add_requirement _ _ => true
  | Event.pm_qos_update_requirement _ _ => true
  | Event.pm_qos_remove_requirement _ => true
  | _ => false

/-- Whether the event is a `set_pwrdm_state` call. -/
def Event.is_set_pwrdm_state : Event → Bool
  | Event.set_pwrdm_state _ _ => true
  | _ => false

/-! ## What a call on domain `res` reads

`resource_set_opp_level` selects the compute domain when `res == VDD1_OPP`
(lines 196-197, 209) and otherwise, for `res == VDD2_OPP`, the interconnect
domain (lines 198-199, 258). -/

/-- The resource pointer the call uses (lines 196-199). -/
def State.domain_resp (c : Config) (s : State W) (res : Int) : Option Ptr :=
  if res = c.VDD1_OPP then s.vdd1_resp else s.vdd2_resp

/-- The lock count the call tests (lines 210 and 259). -/
def State.domain_lock (c : Config) (s : State W) (res : Int) : Int :=
  if res = c.VDD1_OPP then s.vdd1_lock else s.vdd2_lock

/-- The clock the call passes to `clk_set_rate` (lines 235, 246, 267, 280). -/
def State.domain_clk (c : Config) (s : State W) (res : Int) : Ptr :=
  if res = c.VDD1_OPP then s.vdd1_clk else s.vdd2_clk

/-- The frequency the call passes to `clk_set_rate` for level `level`
(lines 214 and 261), given the two tables. -/
def Config.domain_freq (c : Config) (mpu_opps l3_opps : OppTable) (res : Int) (level : Nat) : Nat :=
  if res = c.VDD1_OPP then c.get_freq mpu_opps c.MAX_VDD1_OPP level
  else c.get_freq l3_opps c.MAX_VDD2_OPP level

/-- The voltage scaling call of the domain for level `level`
(lines 223-224 with 237/243, and 263-264 or 284-286 with 271/277/287). -/
def Config.domain_volt_event (c : Config) (mpu_opps l3_opps : OppTable) (res : Int) (level : Nat) :
    Event :=
  if res = c.VDD1_OPP then
    Event.sr_voltagescale_vcbypass (c.ID_VDD c.PRCM_VDD1 ||| c.ID_OPP_NO (mpu_opps level).opp_id)
      (mpu_opps level).vsel
  else
    Event.sr_voltagescale_vcbypass (c.ID_VDD c.PRCM_VDD2 ||| c.ID_OPP_NO (l3_opps level).opp_id)
      (l3_opps level).vsel

/-! ## A sample platform

Concrete values for the parameters, used to exercise the definitions. -/

/-- A sample compute-domain table: level 0 unused, levels 1 to 5 by ascending rate. -/
def sample_mpu_opps : OppTable := fun i =>
  if i = 1 then { rate := 125000000, opp_id := 1, vsel := 30 }
  else if i = 2 then { rate := 250000000, opp_id := 2, vsel := 38 }
  else if i = 3 then { rate := 500000000, opp_id := 3, vsel := 48 }
  else if i = 4 then { rate := 550000000, opp_id := 4, vsel := 54 }
  else if i = 5 then { rate := 600000000, opp_id := 5, vsel := 60 }
  else { rate := 0, opp_id := 0, vsel := 0 }

/-- A sample interconnect table: levels 0 and 1 unused, levels 2 and 3 by ascending rate. -/
def sample_l3_opps : OppTable := fun i =>
  if i = 1 then { rate := 0, opp_id := 1, vsel := 30 }
  else if i = 2 then { rate := 83000000, opp_id := 2, vsel := 36 }
  else if i = 3 then { rate := 166000000, opp_id := 3, vsel := 44 }
  else { rate := 0, opp_id := 0, vsel := 0 }

/-- A sample configuration with both build switches selected by the caller. -/
def sample_config (cpu_freq smartreflex : Bool) : Config :=
  { VDD1_OPP := 1, VDD2_OPP := 2, OPP_IGNORE_LOCK := 1, EINVAL := 22,
    MAX_VDD1_OPP := 5, MAX_VDD2_OPP := 3, PRCM_VDD1 := 1, PRCM_VDD2 := 2,
    ID_VDD := fun v => v * 256, ID_OPP_NO := fun v => v,
    RES_DEFAULTLEVEL := 0, PD_LATENCY_OFF := 0, PD_LATENCY_RET := 1, PD_LATENCY_MAXLEVEL := 4,
    CONFIG_CPU_FREQ := cpu_freq, CONFIG_OMAP_SMARTREFLEX := smartreflex,
    get_freq := fun tbl _ opp => (tbl opp).rate,
    get_opp := fun tbl off freq =>
      ((List.range (off + 1)).find? fun i => decide (freq ≤ (tbl i).rate)).getD off,
    mpu_opps := some sample_mpu_opps, dsp_opps := some sample_mpu_opps,
    l3_opps := some sample_l3_opps }

/-- The external world of the sample platform. -/
structure SampleWorld where
  vdd1_opp_id : Nat
  vdd2_opp_id : Nat
  clk_result : Int
  qos_result : Int
  off_mode : Bool

/-- Sample services: outcomes are read from the world, which no call changes. -/
def sample_services : Services SampleWorld :=
  { clk_get := fun _ w => (7, w),
    clk_set_rate := fun _ _ w => (w.clk_result, w),
    sr_voltagescale_vcbypass := fun _ _ w => w,
    resource_request := fun _ _ _ w => w,
    resource_release := fun _ _ w => w,
    cpufreq_notify_transition := fun _ _ _ _ w => w,
    pm_qos_add_requirement := fun _ _ w => (w.qos_result, w),
    pm_qos_update_requirement := fun _ _ w => (w.qos_result, w),
    pm_qos_remove_requirement := fun _ w => w,
    pwrdm_lookup := fun _ w => (9, w),
    set_pwrdm_state := fun _ _ w => w,
    curr_vdd1_prcm_set := fun w => { rate := 0, opp_id := w.vdd1_opp_id, vsel := 0 },
    curr_vdd2_prcm_set := fun w => { rate := 0, opp_id := w.vdd2_opp_id, vsel := 0 },
    enable_off_mode := fun w => w.off_mode }

/-- A sample world at boot: both domains at level 2, every service succeeds. -/
def sample_world : SampleWorld :=
  { vdd1_opp_id := 2, vdd2_opp_id := 2, clk_result := 0, qos_result := 0, off_mode := true }

/-- A sample heap: the compute OPP record at address 1, the interconnect OPP
record at 2, a latency record at 3, a power-domain latency record at 4 and a
frequency record elsewhere. -/
def sample_mem (lvl1 lvl2 : Nat) : Ptr → shared_resource := fun p =>
  if p = 1 then
    { name := "vdd1_opp", no_of_users := 0, curr_level := lvl1, resource_data := ResourceData.null }
  else if p = 2 then
    { name := "vdd2_opp", no_of_users := 0, curr_level := lvl2, resource_data := ResourceData.null }
  else if p = 3 then
    { name := "mpu_latency", no_of_users := 0, curr_level := 0,
      resource_data := ResourceData.byte 0 }
  else if p = 4 then
    { name := "pwrdm_latency", no_of_users := 0, curr_level := 0,
      resource_data := ResourceData.pd_lat
        { pwrdm_name := "mpu_pwrdm", pd := 9,
          latency := fun i => if i = 0 then 10 else if i = 1 then 50 else 200 } }
  else
    { name := "mpu_freq", no_of_users := 0, curr_level := 0,
      resource_data := ResourceData.cstr "vdd1_opp" }

/-- A sample state after `init_opp` ran on both OPP records, with the given
levels, lock counts and clock outcome. -/
def sample_state (lvl1 lvl2 : Nat) (lock1 lock2 : Int) (clk_result : Int) : State SampleWorld :=
  { mem := sample_mem lvl1 lvl2, vdd1_clk := 7, vdd2_clk := 8, vdd1_resp := some 1,
    vdd2_resp := some 2, vdd1_lock := lock1, vdd2_lock := lock2,
    world := { vdd1_opp_id := lvl1, vdd2_opp_id := lvl2, clk_result := clk_result,
               qos_result := 0, off_mode := true },
    trace := [] }

/-- The sample configuration with no OPP table loaded. -/
def sample_config_no_tables : Config :=
  { sample_config true true with mpu_opps := none, dsp_opps := none, l3_opps := none }

/-! ## The QoS registration protocol

A registration exists after `pm_qos_add_requirement` and until
`pm_qos_remove_requirement`. -/

/-- Replays the QoS calls of a list of events from the registration status
`registered`: the status after them, or `none` when an add is issued while a
registration exists or an update or remove while none exists. Other events are
skipped. -/
def qos_protocol : Bool → List Event → Option Bool
  | registered, [] => some registered
  | registered, Event.pm_qos_add_requirement _ _ :: rest =>
    if registered then none else qos_protocol true rest
  | registered, Event.pm_qos_update_requirement _ _ :: rest =>
    if registered then qos_protocol true rest else none
  | registered, Event.pm_qos_remove_requirement _ :: rest =>
    if registered then qos_protocol false rest else none
  | registered, _ :: rest => qos_protocol registered rest

/-! ## Shape of a call to `resource_set_opp_level` -/

/-- A call on the compute domain that passes the same-level, table and lock
checks is the compute-domain transition. -/
theorem resource_set_opp_level_vdd1 (c : Config) (x : Services W) (target_level : Nat)
    (flags : Int) (s : State W) (resp : Ptr) (mpu_opps dsp_opps l3_opps : OppTable)
    (hresp : s.vdd1_resp = some resp) (hne : (s.mem resp).curr_level ≠ target_level)
    (hmpu : c.mpu_opps = some mpu_opps) (hdsp : c.dsp_opps = some dsp_opps)
    (hl3 : c.l3_opps = some l3_opps)
    (hlock : flags = c.OPP_IGNORE_LOCK ∨ s.vdd1_lock = 0) :
    resource_set_opp_level c x c.VDD1_OPP target_level flags s
      = some (set_vdd1_level c x mpu_opps resp target_level s) := by
  have hl : ¬ (flags ≠ c.OPP_IGNORE_LOCK ∧ s.vdd1_lock ≠ 0) := by
    rintro ⟨h1, h2⟩
    rcases hlock with h | h
    · exact h1 h
    · exact h2 h
  simp only [resource_set_opp_level, if_true, hresp, hmpu, hdsp, hl3, if_neg hne, if_neg hl]

/-- A call on the interconnect domain that passes the same-level, table and lock
checks is the interconnect-domain transition. -/
theorem resource_set_opp_level_vdd2 (c : Config) (x : Services W) (target_level : Nat)
    (flags : Int) (s : State W) (resp : Ptr) (mpu_opps dsp_opps l3_opps : OppTable)
    (hdist : c.VDD2_OPP ≠ c.VDD1_OPP)
    (hresp : s.vdd2_resp = some resp) (hne : (s.mem resp).curr_level ≠ target_level)
    (hmpu : c.mpu_opps = some mpu_opps) (hdsp : c.dsp_opps = some dsp_opps)
    (hl3 : c.l3_opps = some l3_opps)
    (hlock : flags = c.OPP_IGNORE_LOCK ∨ s.vdd2_lock = 0) :
    resource_set_opp_level c x c.VDD2_OPP target_level flags s
      = some (set_vdd2_level c x l3_opps resp target_level s) := by
  have hl : ¬ (flags ≠ c.OPP_IGNORE_LOCK ∧ s.vdd2_lock ≠ 0) := by
    rintro ⟨h1, h2⟩
    rcases hlock with h | h
    · exact h1 h
    · exact h2 h
  simp only [resource_set_opp_level, if_neg hdist, if_true, hresp, hmpu, hdsp, hl3, if_neg hne,
    if_neg hl]

/-- The calls a compute-domain transition makes, in order. -/
theorem set_vdd1_level_trace (c : Config) (x : Services W) (mpu_opps : OppTable) (resp : Ptr)
    (target_level : Nat) (s : State W) :
    (set_vdd1_level c x mpu_opps resp target_level s).2.trace = s.trace ++
      ((if c.CONFIG_CPU_FREQ = true then
          [Event.cpufreq_notify_transition
            (c.get_freq mpu_opps c.MAX_VDD1_OPP (x.curr_vdd1_prcm_set s.world).opp_id / 1000)
            (c.get_freq mpu_opps c.MAX_VDD1_OPP target_level / 1000) 0
            CpufreqPhase.CPUFREQ_PRECHANGE]
        else []) ++
       (if (mpu_opps target_level).opp_id ≥ 3 then
          [Event.resource_request "vdd2_opp" Device.vdd2_dev 400000]
        else []) ++
       (if (s.mem resp).curr_level > target_level then
          Event.clk_set_rate s.vdd1_clk (c.get_freq mpu_opps c.MAX_VDD1_OPP target_level) ::
            (if c.CONFIG_OMAP_SMARTREFLEX = true then
              [Event.sr_voltagescale_vcbypass
                (c.ID_VDD c.PRCM_VDD1 ||| c.ID_OPP_NO (mpu_opps target_level).opp_id)
                (mpu_opps target_level).vsel]
            else [])
        else
          (if c.CONFIG_OMAP_SMARTREFLEX = true then
              [Event.sr_voltagescale_vcbypass
                (c.ID_VDD c.PRCM_VDD1 ||| c.ID_OPP_NO (mpu_opps target_level).opp_id)
                (mpu_opps target_level).vsel]
            else []) ++
            [Event.clk_set_rate s.vdd1_clk (c.get_freq mpu_opps c.MAX_VDD1_OPP target_level)]) ++
       (if (mpu_opps target_level).opp_id < 3 then
          [Event.resource_release "vdd2_opp" Device.vdd2_dev]
        else []) ++
       (if c.CONFIG_CPU_FREQ = true then
          [Event.cpufreq_notify_transition
            (c.get_freq mpu_opps c.MAX_VDD1_OPP (x.curr_vdd1_prcm_set s.world).opp_id / 1000)
            (c.get_freq mpu_opps c.MAX_VDD1_OPP target_level / 1000) 0
            CpufreqPhase.CPUFREQ_POSTCHANGE]
        else [])) := by
  unfold set_vdd1_level
  by_cases h1 : c.CONFIG_CPU_FREQ = true <;>
  by_cases h2 : (mpu_opps target_level).opp_id ≥ 3 <;>
  by_cases h3 : (s.mem resp).curr_level > target_level <;>
  by_cases h4 : c.CONFIG_OMAP_SMARTREFLEX = true <;>
  by_cases h5 : (mpu_opps target_level).opp_id < 3 <;>
    simp [h1, h2, h3, h4, h5, do_clk_set_rate, do_sr_voltagescale_vcbypass, do_resource_request,
      do_resource_release, do_cpufreq_notify_transition, State.call, State.set_curr_level]

/-- The outcome of an interconnect-domain transition is the outcome of its
`clk_set_rate` call. -/
theorem set_vdd2_level_fst (c : Config) (x : Services W) (l3_opps : OppTable) (resp : Ptr)
    (target_level : Nat) (s : State W) :
    (set_vdd2_level c x l3_opps resp target_level s).1 =
      (x.clk_set_rate s.vdd2_clk (c.get_freq l3_opps c.MAX_VDD2_OPP target_level)
        (if (s.mem resp).curr_level > target_level then s.world
         else if c.CONFIG_OMAP_SMARTREFLEX = true then
           x.sr_voltagescale_vcbypass
             (c.ID_VDD c.PRCM_VDD2 ||| c.ID_OPP_NO (l3_opps target_level).opp_id)
             (l3_opps target_level).vsel s.world
         else s.world)).1 := by
  unfold set_vdd2_level
  by_cases h3 : (s.mem resp).curr_level > target_level <;>
  by_cases h4 : c.CONFIG_OMAP_SMARTREFLEX = true <;>
    simp only [h3, h4, if_true, if_false, do_clk_set_rate, do_sr_voltagescale_vcbypass,
      State.call] <;>
    split_ifs with h <;> simp_all

/-- The calls an interconnect-domain transition makes, in order. -/
theorem set_vdd2_level_trace (c : Config) (x : Services W) (l3_opps : OppTable) (resp : Ptr)
    (target_level : Nat) (s : State W) :
    (set_vdd2_level c x l3_opps resp target_level s).2.trace = s.trace ++
      (if (s.mem resp).curr_level > target_level then
        Event.clk_set_rate s.vdd2_clk (c.get_freq l3_opps c.MAX_VDD2_OPP target_level) ::
          (if (set_vdd2_level c x l3_opps resp target_level s).1 = 0
              ∧ c.CONFIG_OMAP_SMARTREFLEX = true then
            [Event.sr_voltagescale_vcbypass
              (c.ID_VDD c.PRCM_VDD2 ||| c.ID_OPP_NO (l3_opps target_level).opp_id)
              (l3_opps target_level).vsel]
          else [])
      else
        (if c.CONFIG_OMAP_SMARTREFLEX = true then
            [Event.sr_voltagescale_vcbypass
              (c.ID_VDD c.PRCM_VDD2 ||| c.ID_OPP_NO (l3_opps target_level).opp_id)
              (l3_opps target_level).vsel]
          else []) ++
          Event.clk_set_rate s.vdd2_clk (c.get_freq l3_opps c.MAX_VDD2_OPP target_level) ::
          (if (set_vdd2_level c x l3_opps resp target_level s).1 ≠ 0
              ∧ c.CONFIG_OMAP_SMARTREFLEX = true then
            [Event.sr_voltagescale_vcbypass
              (c.ID_VDD c.PRCM_VDD2 ||| c.ID_OPP_NO (l3_opps (s.mem resp).curr_level).opp_id)
              (l3_opps (s.mem resp).curr_level).vsel]
          else [])) := by
  rw [set_vdd2_level_fst]
  unfold set_vdd2_level
  by_cases h3 : (s.mem resp).curr_level > target_level <;>
  by_cases h4 : c.CONFIG_OMAP_SMARTREFLEX = true <;>
    simp only [h3, h4, if_true, if_false, do_clk_set_rate, do_sr_voltagescale_vcbypass,
      State.call, State.set_curr_level] <;>
    split_ifs with h <;> simp_all

/-- The heap after an interconnect-domain transition: untouched when the clock
call failed, else `curr_level` of the resource is read back from `curr_vdd2_prcm_set`. -/
theorem set_vdd2_level_mem (c : Config) (x : Services W) (l3_opps : OppTable) (resp : Ptr)
    (target_level : Nat) (s : State W) :
    (set_vdd2_level c x l3_opps resp target_level s).2.mem =
      if (set_vdd2_level c x l3_opps resp target_level s).1 ≠ 0 then s.mem
      else Function.update s.mem resp
        { s.mem resp with
          curr_level :=
            (x.curr_vdd2_prcm_set (set_vdd2_level c x l3_opps resp target_level s).2.world).opp_id } := by
  rw [set_vdd2_level_fst]
  unfold set_vdd2_level
  by_cases h3 : (s.mem resp).curr_level > target_level <;>
  by_cases h4 : c.CONFIG_OMAP_SMARTREFLEX = true <;>
    simp only [h3, h4, if_true, if_false, do_clk_set_rate, do_sr_voltagescale_vcbypass,
      State.call, State.set_curr_level] <;>
    split_ifs with h <;> simp_all

/-! ## Ordering of voltage and clock calls -/

/-- C1 (upscale ordering): with `CONFIG_OMAP_SMARTREFLEX` enabled, a call
`resource_set_opp_level(res, target, flags)` on `VDD1_OPP` or `VDD2_OPP` that
performs a transition (tables present, domain not blocked by its lock,
`resp->curr_level < target`) and returns 0 issues the voltage scaling call for
the target level's `vsel` strictly before the `clk_set_rate` call for the target
frequency: the voltage and clock calls among the calls it adds to the trace
are, in order, exactly that voltage call and that clock call. -/
theorem upscale_voltage_before_clock (c : Config) (x : Services W) (res : Int)
    (target_level : Nat) (flags : Int) (s s' : State W) (resp : Ptr)
    (mpu_opps dsp_opps l3_opps : OppTable)
    (hsr : c.CONFIG_OMAP_SMARTREFLEX = true)
    (hres : res = c.VDD1_OPP ∨ res = c.VDD2_OPP)
    (hmpu : c.mpu_opps = some mpu_opps) (hdsp : c.dsp_opps = some dsp_opps)
    (hl3 : c.l3_opps = some l3_opps)
    (hresp : s.domain_resp c res = some resp)
    (hlock : flags = c.OPP_IGNORE_LOCK ∨ s.domain_lock c res = 0)
    (hup : (s.mem resp).curr_level < target_level)
    (hret : resource_set_opp_level c x res target_level flags s = some (0, s')) :
    ∃ calls : List Event, s'.trace = s.trace ++ calls ∧
      calls.filter (fun e => e.is_voltagescale || e.is_clk_set_rate) =
        [c.domain_volt_event mpu_opps l3_opps res target_level,
          Event.clk_set_rate (s.domain_clk c res)
            (c.domain_freq mpu_opps l3_opps res target_level)] := by
  have hne : (s.mem resp).curr_level ≠ target_level := Nat.ne_of_lt hup
  have hnd : ¬ (s.mem resp).curr_level > target_level := Nat.not_lt.mpr (Nat.le_of_lt hup)
  by_cases h1 : res = c.VDD1_OPP
  · subst h1
    simp only [State.domain_resp, State.domain_lock, State.domain_clk, Config.domain_freq,
      Config.domain_volt_event, if_true] at hresp hlock ⊢
    rw [resource_set_opp_level_vdd1 c x target_level flags s resp mpu_opps dsp_opps l3_opps
      hresp hne hmpu hdsp hl3 hlock] at hret
    have hs : s' = (set_vdd1_level c x mpu_opps resp target_level s).2 := by
      injection hret with h
      rw [h]
    refine ⟨_, by rw [hs, set_vdd1_level_trace], ?_⟩
    simp only [if_neg hnd, hsr, if_true]
    split_ifs <;> rfl
  · have h2 : res = c.VDD2_OPP := by
      rcases hres with h | h
      · exact absurd h h1
      · exact h
    subst h2
    simp only [State.domain_resp, State.domain_lock, State.domain_clk, Config.domain_freq,
      Config.domain_volt_event, if_neg h1] at hresp hlock ⊢
    rw [resource_set_opp_level_vdd2 c x target_level flags s resp mpu_opps dsp_opps l3_opps
      h1 hresp hne hmpu hdsp hl3 hlock] at hret
    have hs : s' = (set_vdd2_level c x l3_opps resp target_level s).2 := by
      injection hret with h
      rw [h]
    have h0 : (set_vdd2_level c x l3_opps resp target_level s).1 = 0 := by
      injection hret with h
      rw [h]
    refine ⟨_, by rw [hs, set_vdd2_level_trace], ?_⟩
    simp only [if_neg hnd, hsr, if_true, h0, ne_eq, not_true_eq_false, false_and, if_false]
    rfl

/-- C1 witness: the sample compute domain at level 2, unlocked, asked for level 3
with a clock that succeeds. -/
theorem upscale_voltage_before_clock_witness :
    ∃ calls : List Event,
      (set_vdd1_level (sample_config true true) sample_services sample_mpu_opps 1 3
          (sample_state 2 2 0 0 0)).2.trace = (sample_state 2 2 0 0 0).trace ++ calls ∧
      calls.filter (fun e => e.is_voltagescale || e.is_clk_set_rate) =
        [(sample_config true true).domain_volt_event sample_mpu_opps sample_l3_opps 1 3,
          Event.clk_set_rate ((sample_state 2 2 0 0 0).domain_clk (sample_config true true) 1)
            ((sample_config true true).domain_freq sample_mpu_opps sample_l3_opps 1 3)] :=
  upscale_voltage_before_clock (sample_config true true) sample_services 1 3 0
    (sample_state 2 2 0 0 0) _ 1 sample_mpu_opps sample_mpu_opps sample_l3_opps
    rfl (Or.inl rfl) rfl rfl rfl rfl (Or.inr rfl) (by decide) rfl

/-- C2 as stated fails in a build without `CONFIG_OMAP_SMARTREFLEX`: the sample
compute domain at level 3, unlocked, asked for level 2, returns 0 and makes one
`clk_set_rate` call, a release and the two notifications, but no voltage call. -/
theorem downscale_without_smartreflex_counterexample :
    (sample_mem 3 3 1).curr_level > 2 ∧
    (resource_set_opp_level (sample_config true false) sample_services 1 2 0
        (sample_state 3 3 0 0 0)).map (fun r => (r.1, r.2.trace)) =
      some (0, [Event.cpufreq_notify_transition 500000 250000 0 CpufreqPhase.CPUFREQ_PRECHANGE,
        Event.clk_set_rate 7 250000000,
        Event.resource_release "vdd2_opp" Device.vdd2_dev,
        Event.cpufreq_notify_transition 500000 250000 0 CpufreqPhase.CPUFREQ_POSTCHANGE]) :=
  ⟨by decide, rfl⟩

/-- C2 (downscale ordering, amended): with `CONFIG_OMAP_SMARTREFLEX` enabled, a
call `resource_set_opp_level(res, target, flags)` on `VDD1_OPP` or `VDD2_OPP`
that performs a transition (tables present, domain not blocked by its lock,
`resp->curr_level > target`) and returns 0 issues the `clk_set_rate` call for
the target frequency strictly before the voltage scaling call for the target
level's `vsel`, each exactly once: the clock and voltage calls among the calls
it adds to the trace are, in order, exactly that clock call and that voltage call. -/
theorem downscale_clock_before_voltage (c : Config) (x : Services W) (res : Int)
    (target_level : Nat) (flags : Int) (s s' : State W) (resp : Ptr)
    (mpu_opps dsp_opps l3_opps : OppTable)
    (hsr : c.CONFIG_OMAP_SMARTREFLEX = true)
    (hres : res = c.VDD1_OPP ∨ res = c.VDD2_OPP)
    (hmpu : c.mpu_opps = some mpu_opps) (hdsp : c.dsp_opps = some dsp_opps)
    (hl3 : c.l3_opps = some l3_opps)
    (hresp : s.domain_resp c res = some resp)
    (hlock : flags = c.OPP_IGNORE_LOCK ∨ s.domain_lock c res = 0)
    (hdown : (s.mem resp).curr_level > target_level)
    (hret : resource_set_opp_level c x res target_level flags s = some (0, s')) :
    ∃ calls : List Event, s'.trace = s.trace ++ calls ∧
      calls.filter (fun e => e.is_voltagescale || e.is_clk_set_rate) =
        [Event.clk_set_rate (s.domain_clk c res)
            (c.domain_freq mpu_opps l3_opps res target_level),
          c.domain_volt_event mpu_opps l3_opps res target_level] := by
  have hne : (s.mem resp).curr_level ≠ target_level := Nat.ne_of_gt hdown
  by_cases h1 : res = c.VDD1_OPP
  · subst h1
    simp only [State.domain_resp, State.domain_lock, State.domain_clk, Config.domain_freq,
      Config.domain_volt_event, if_true] at hresp hlock ⊢
    rw [resource_set_opp_level_vdd1 c x target_level flags s resp mpu_opps dsp_opps l3_opps
      hresp hne hmpu hdsp hl3 hlock] at hret
    have hs : s' = (set_vdd1_level c x mpu_opps resp target_level s).2 := by
      injection hret with h
      rw [h]
    refine ⟨_, by rw [hs, set_vdd1_level_trace], ?_⟩
    simp only [if_pos hdown, hsr, if_true]
    split_ifs <;> rfl
  · have h2 : res = c.VDD2_OPP := by
      rcases hres with h | h
      · exact absurd h h1
      · exact h
    subst h2
    simp only [State.domain_resp, State.domain_lock, State.domain_clk, Config.domain_freq,
      Config.domain_volt_event, if_neg h1] at hresp hlock ⊢
    rw [resource_set_opp_level_vdd2 c x target_level flags s resp mpu_opps dsp_opps l3_opps
      h1 hresp hne hmpu hdsp hl3 hlock] at hret
    have hs : s' = (set_vdd2_level c x l3_opps resp target_level s).2 := by
      injection hret with h
      rw [h]
    have h0 : (set_vdd2_level c x l3_opps resp target_level s).1 = 0 := by
      injection hret with h
      rw [h]
    refine ⟨_, by rw [hs, set_vdd2_level_trace], ?_⟩
    simp only [if_pos hdown, hsr, h0, and_self, if_true]
    rfl

/-- C2 witness: the sample interconnect domain at level 3, unlocked, asked for
level 2 with a clock that succeeds. -/
theorem downscale_clock_before_voltage_witness :
    ∃ calls : List Event,
      (set_vdd2_level (sample_config true true) sample_services sample_l3_opps 2 2
          (sample_state 3 3 0 0 0)).2.trace = (sample_state 3 3 0 0 0).trace ++ calls ∧
      calls.filter (fun e => e.is_voltagescale || e.is_clk_set_rate) =
        [Event.clk_set_rate ((sample_state 3 3 0 0 0).domain_clk (sample_config true true) 2)
            ((sample_config true true).domain_freq sample_mpu_opps sample_l3_opps 2 2),
          (sample_config true true).domain_volt_event sample_mpu_opps sample_l3_opps 2 2] :=
  downscale_clock_before_voltage (sample_config true true) sample_services 2 2 0
    (sample_state 3 3 0 0 0) _ 2 sample_mpu_opps sample_mpu_opps sample_l3_opps
    rfl (Or.inr rfl) rfl rfl rfl rfl (Or.inr rfl) (by decide) rfl

/-! ## Lock gating -/

/-- C3 (lock gating): for either domain, when the lock count the call tests is
positive and `flags != OPP_IGNORE_LOCK`, `resource_set_opp_level(res, target, flags)`
returns 0 and leaves the whole state as it was, for every target: the
resource's `curr_level` is unchanged and the trace gains no call. -/
theorem locked_domain_ignores_request (c : Config) (x : Services W) (res : Int)
    (target_level : Nat) (flags : Int) (s : State W) (resp : Ptr)
    (hres : res = c.VDD1_OPP ∨ res = c.VDD2_OPP)
    (hresp : s.domain_resp c res = some resp)
    (hlock : 0 < s.domain_lock c res)
    (hflags : flags ≠ c.OPP_IGNORE_LOCK) :
    resource_set_opp_level c x res target_level flags s = some (0, s) := by
  have hl : s.domain_lock c res ≠ 0 := ne_of_gt hlock
  by_cases h1 : res = c.VDD1_OPP
  · subst h1
    simp only [State.domain_resp, State.domain_lock, if_true] at hresp hl
    have hb : flags ≠ c.OPP_IGNORE_LOCK ∧ s.vdd1_lock ≠ 0 := ⟨hflags, hl⟩
    simp only [resource_set_opp_level, if_true, hresp, if_pos hb]
    split_ifs
    · rfl
    · split <;> rfl
  · have h2 : res = c.VDD2_OPP := by
      rcases hres with h | h
      · exact absurd h h1
      · exact h
    subst h2
    simp only [State.domain_resp, State.domain_lock, if_neg h1] at hresp hl
    have hb : flags ≠ c.OPP_IGNORE_LOCK ∧ s.vdd2_lock ≠ 0 := ⟨hflags, hl⟩
    simp only [resource_set_opp_level, if_neg h1, if_true, hresp, if_pos hb]
    split_ifs
    · rfl
    · split <;> rfl

/-- C3 witness: the sample compute domain with lock count 1 and a request for a
different level (3, from 2) without override. -/
theorem locked_domain_ignores_request_witness :
    (sample_mem 2 2 1).curr_level ≠ 3 ∧
    resource_set_opp_level (sample_config true true) sample_services 1 3 0
      (sample_state 2 2 1 0 0) = some (0, sample_state 2 2 1 0 0) :=
  ⟨by decide, locked_domain_ignores_request (sample_config true true) sample_services 1 3 0
    (sample_state 2 2 1 0 0) 1 (Or.inl rfl) rfl (by decide) (by decide)⟩

/-! ## Rollback on a failed interconnect upscale -/

/-- C4 as stated fails in a build without `CONFIG_OMAP_SMARTREFLEX`: the sample
interconnect domain at level 2, unlocked, asked for level 3 with a clock that
fails with -5, returns -5 after a single `clk_set_rate` call; the trace has no
voltage scaling call, hence none with the selector code of the old level. -/
theorem upscale_rollback_without_smartreflex_counterexample :
    (sample_mem 3 2 2).curr_level < 3 ∧
    (resource_set_opp_level (sample_config true false) sample_services 2 3 0
        (sample_state 3 2 0 0 (-5))).map (fun r => (r.1, r.2.trace)) =
      some (-5, [Event.clk_set_rate 8 166000000]) :=
  ⟨by decide, rfl⟩

/-- C4 (rollback, amended): with `CONFIG_OMAP_SMARTREFLEX` enabled, a call
`resource_set_opp_level(VDD2_OPP, target, flags)` that performs an upscale
(`curr_level < target`, tables present, not lock-blocked) in which `clk_set_rate`
returns a non-zero `r` returns `r`, leaves the heap (so the resource's
`curr_level`) as it was, and adds exactly three calls to the trace: the voltage
call for the target level, the clock call, and a voltage call with the selector
code `l3_opps[old curr_level].vsel`, which is therefore the last voltage
scaling call of the trace. -/
theorem interconnect_upscale_rollback (c : Config) (x : Services W) (target_level : Nat)
    (flags : Int) (s : State W) (resp : Ptr) (mpu_opps dsp_opps l3_opps : OppTable) (r : Int)
    (hsr : c.CONFIG_OMAP_SMARTREFLEX = true)
    (hdist : c.VDD2_OPP ≠ c.VDD1_OPP)
    (hmpu : c.mpu_opps = some mpu_opps) (hdsp : c.dsp_opps = some dsp_opps)
    (hl3 : c.l3_opps = some l3_opps)
    (hresp : s.vdd2_resp = some resp)
    (hlock : flags = c.OPP_IGNORE_LOCK ∨ s.vdd2_lock = 0)
    (hup : (s.mem resp).curr_level < target_level)
    (hclk : (x.clk_set_rate s.vdd2_clk (c.get_freq l3_opps c.MAX_VDD2_OPP target_level)
      (x.sr_voltagescale_vcbypass
        (c.ID_VDD c.PRCM_VDD2 ||| c.ID_OPP_NO (l3_opps target_level).opp_id)
        (l3_opps target_level).vsel s.world)).1 = r)
    (hr : r ≠ 0) :
    ∃ s' : State W,
      resource_set_opp_level c x c.VDD2_OPP target_level flags s = some (r, s') ∧
      s'.mem = s.mem ∧
      s'.trace = s.trace ++
        [Event.sr_voltagescale_vcbypass
            (c.ID_VDD c.PRCM_VDD2 ||| c.ID_OPP_NO (l3_opps target_level).opp_id)
            (l3_opps target_level).vsel,
          Event.clk_set_rate s.vdd2_clk (c.get_freq l3_opps c.MAX_VDD2_OPP target_level),
          Event.sr_voltagescale_vcbypass
            (c.ID_VDD c.PRCM_VDD2 ||| c.ID_OPP_NO (l3_opps (s.mem resp).curr_level).opp_id)
            (l3_opps (s.mem resp).curr_level).vsel] ∧
      (s'.trace.filter Event.is_voltagescale).getLast? =
        some (Event.sr_voltagescale_vcbypass
          (c.ID_VDD c.PRCM_VDD2 ||| c.ID_OPP_NO (l3_opps (s.mem resp).curr_level).opp_id)
          (l3_opps (s.mem resp).curr_level).vsel) := by
  have hne : (s.mem resp).curr_level ≠ target_level := Nat.ne_of_lt hup
  have hnd : ¬ (s.mem resp).curr_level > target_level := Nat.not_lt.mpr (Nat.le_of_lt hup)
  have h1 : (set_vdd2_level c x l3_opps resp target_level s).1 = r := by
    rw [set_vdd2_level_fst, if_neg hnd, if_pos hsr, hclk]
  have h1n : (set_vdd2_level c x l3_opps resp target_level s).1 ≠ 0 := by
    rw [h1]
    exact hr
  have htr := set_vdd2_level_trace c x l3_opps resp target_level s
  rw [if_neg hnd, if_pos hsr, if_pos ⟨h1n, hsr⟩] at htr
  refine ⟨(set_vdd2_level c x l3_opps resp target_level s).2, ?_, ?_, htr, ?_⟩
  · rw [resource_set_opp_level_vdd2 c x target_level flags s resp mpu_opps dsp_opps l3_opps
      hdist hresp hne hmpu hdsp hl3 hlock, ← h1]
  · rw [set_vdd2_level_mem, if_pos h1n]
  · rw [htr, List.filter_append]
    simp [List.filter, Event.is_voltagescale]

/-- C4 witness: the sample interconnect domain at level 2, unlocked, asked for
level 3 with a clock that fails with -5. -/
theorem interconnect_upscale_rollback_witness :
    ∃ s' : State SampleWorld,
      resource_set_opp_level (sample_config true true) sample_services 2 3 0
        (sample_state 3 2 0 0 (-5)) = some (-5, s') ∧
      s'.mem = (sample_state 3 2 0 0 (-5)).mem ∧
      s'.trace = [] ++
        [Event.sr_voltagescale_vcbypass (512 ||| 3) 44,
          Event.clk_set_rate 8 166000000,
          Event.sr_voltagescale_vcbypass (512 ||| 2) 36] ∧
      (s'.trace.filter Event.is_voltagescale).getLast? =
        some (Event.sr_voltagescale_vcbypass (512 ||| 2) 36) :=
  interconnect_upscale_rollback (sample_config true true) sample_services 3 0
    (sample_state 3 2 0 0 (-5)) 2 sample_mpu_opps sample_mpu_opps sample_l3_opps (-5)
    rfl (by decide) rfl rfl rfl rfl (Or.inr rfl) (by decide) rfl (by decide)

/-! ## Cross-domain dependency -/

/-- The outcome of a compute-domain transition is always 0. -/
theorem set_vdd1_level_fst (c : Config) (x : Services W) (mpu_opps : OppTable) (resp : Ptr)
    (target_level : Nat) (s : State W) :
    (set_vdd1_level c x mpu_opps resp target_level s).1 = 0 := rfl

/-- C5 (cross-domain dependency): a call `resource_set_opp_level(VDD1_OPP, target, flags)`
that performs a transition (tables present, level differs, not lock-blocked)
returns 0 and, when `mpu_opps[target].opp_id >= 3`, its requests and releases
are exactly one `resource_request("vdd2_opp", &vdd2_dev, 400000)`, which comes
before every clock and voltage call of the transition; when
`mpu_opps[target].opp_id < 3`, its requests and releases are exactly one
`resource_release("vdd2_opp", &vdd2_dev)`. -/
theorem compute_transition_dependency (c : Config) (x : Services W) (target_level : Nat)
    (flags : Int) (s : State W) (resp : Ptr) (mpu_opps dsp_opps l3_opps : OppTable)
    (hmpu : c.mpu_opps = some mpu_opps) (hdsp : c.dsp_opps = some dsp_opps)
    (hl3 : c.l3_opps = some l3_opps)
    (hresp : s.vdd1_resp = some resp)
    (hne : (s.mem resp).curr_level ≠ target_level)
    (hlock : flags = c.OPP_IGNORE_LOCK ∨ s.vdd1_lock = 0) :
    ∃ (s' : State W) (calls : List Event),
      resource_set_opp_level c x c.VDD1_OPP target_level flags s = some (0, s') ∧
      s'.trace = s.trace ++ calls ∧
      ((mpu_opps target_level).opp_id ≥ 3 →
        calls.filter (fun e => e.is_resource_request || e.is_resource_release) =
          [Event.resource_request "vdd2_opp" Device.vdd2_dev 400000] ∧
        (calls.filter
            (fun e => e.is_resource_request || e.is_clk_set_rate || e.is_voltagescale)).head? =
          some (Event.resource_request "vdd2_opp" Device.vdd2_dev 400000)) ∧
      ((mpu_opps target_level).opp_id < 3 →
        calls.filter (fun e => e.is_resource_request || e.is_resource_release) =
          [Event.resource_release "vdd2_opp" Device.vdd2_dev]) := by
  refine ⟨(set_vdd1_level c x mpu_opps resp target_level s).2, _, ?_,
    set_vdd1_level_trace c x mpu_opps resp target_level s, ?_, ?_⟩
  · rw [resource_set_opp_level_vdd1 c x target_level flags s resp mpu_opps dsp_opps l3_opps
      hresp hne hmpu hdsp hl3 hlock]
    rfl
  · intro h3
    have h3n : ¬ (mpu_opps target_level).opp_id < 3 := Nat.not_lt.mpr h3
    simp only [if_pos h3, if_neg h3n]
    constructor <;> split_ifs <;> rfl
  · intro h3
    have h3n : ¬ (mpu_opps target_level).opp_id ≥ 3 := Nat.not_le.mpr h3
    simp only [if_pos h3, if_neg h3n]
    split_ifs <;> rfl

/-- C5 witness: the sample compute domain at level 2, unlocked, asked for level 3,
whose OPP id is 3. -/
theorem compute_transition_dependency_witness :
    (sample_mpu_opps 3).opp_id ≥ 3 ∧
    ∃ (s' : State SampleWorld) (calls : List Event),
      resource_set_opp_level (sample_config true true) sample_services
        (sample_config true true).VDD1_OPP 3 0 (sample_state 2 2 0 0 0) = some (0, s') ∧
      s'.trace = (sample_state 2 2 0 0 0).trace ++ calls ∧
      ((sample_mpu_opps 3).opp_id ≥ 3 →
        calls.filter (fun e => e.is_resource_request || e.is_resource_release) =
          [Event.resource_request "vdd2_opp" Device.vdd2_dev 400000] ∧
        (calls.filter
            (fun e => e.is_resource_request || e.is_clk_set_rate || e.is_voltagescale)).head? =
          some (Event.resource_request "vdd2_opp" Device.vdd2_dev 400000)) ∧
      ((sample_mpu_opps 3).opp_id < 3 →
        calls.filter (fun e => e.is_resource_request || e.is_resource_release) =
          [Event.resource_release "vdd2_opp" Device.vdd2_dev]) :=
  ⟨by decide, compute_transition_dependency (sample_config true true) sample_services 3 0
    (sample_state 2 2 0 0 0) 1 sample_mpu_opps sample_mpu_opps sample_l3_opps
    rfl rfl rfl rfl (by decide) (Or.inr rfl)⟩

/-! ## Power-domain latency -/

/-- The scan of `set_pd_latency` stops at the first index of its range whose
threshold is below the latency, and keeps the initial `pd_lat_level` when the
range has none. -/
theorem set_pd_latency_scan_spec (latency_db : Nat → Nat) (latency pd_lat_level : Nat) :
    ∀ n ind : Nat,
      (∃ i, ind ≤ i ∧ i < ind + n ∧ latency_db i < latency ∧
          (∀ j, ind ≤ j → j < i → ¬ latency_db j < latency) ∧
          set_pd_latency_scan latency_db latency pd_lat_level n ind = i) ∨
      ((∀ j, ind ≤ j → j < ind + n → ¬ latency_db j < latency) ∧
          set_pd_latency_scan latency_db latency pd_lat_level n ind = pd_lat_level) := by
  intro n
  induction n with
  | zero =>
    intro ind
    right
    refine ⟨?_, rfl⟩
    intro j h1 h2
    omega
  | succ n ih =>
    intro ind
    by_cases h : latency_db ind < latency
    · left
      refine ⟨ind, le_refl _, by omega, h, ?_, ?_⟩
      · intro j h1 h2
        omega
      · simp only [set_pd_latency_scan, if_pos h]
    · have hstep : set_pd_latency_scan latency_db latency pd_lat_level (n + 1) ind =
          set_pd_latency_scan latency_db latency pd_lat_level n (ind + 1) := by
        simp only [set_pd_latency_scan, if_neg h]
      rcases ih (ind + 1) with ⟨i, h1, h2, h3, h4, h5⟩ | ⟨h1, h2⟩
      · left
        refine ⟨i, by omega, by omega, h3, ?_, by rw [hstep, h5]⟩
        intro j hj1 hj2
        by_cases hj : j = ind
        · rw [hj]
          exact h
        · exact h4 j (by omega) hj2
      · right
        refine ⟨?_, by rw [hstep, h2]⟩
        intro j hj1 hj2
        by_cases hj : j = ind
        · rw [hj]
          exact h
        · exact h1 j (by omega) (by omega)

/-- C6 (power-domain state selection): for every threshold table and latency,
`set_pd_latency` returns 0, sets `curr_level` to `lvl` and adds exactly one
call, `set_pwrdm_state` with that same `lvl`, where `s0` is the smallest index
below `PD_LATENCY_MAXLEVEL` whose threshold is strictly below the latency, or
`PD_LATENCY_OFF` when there is none, and `lvl` is `PD_LATENCY_RET` when
`enable_off_mode` is false and `s0 = PD_LATENCY_OFF`, else `s0`. With
`enable_off_mode` false, `lvl` is never `PD_LATENCY_OFF` (the two state
constants being distinct). -/
theorem set_pd_latency_selects (c : Config) (x : Services W) (resp : Ptr) (latency : Nat)
    (s : State W) (db : pd_latency_db)
    (hdb : (s.mem resp).resource_data = ResourceData.pd_lat db)
    (hconst : c.PD_LATENCY_RET ≠ c.PD_LATENCY_OFF) :
    ∃ (s0 lvl : Nat) (s' : State W),
      ((s0 < c.PD_LATENCY_MAXLEVEL ∧ db.latency s0 < latency ∧
          ∀ j, j < s0 → ¬ db.latency j < latency) ∨
        ((∀ j, j < c.PD_LATENCY_MAXLEVEL → ¬ db.latency j < latency) ∧
          s0 = c.PD_LATENCY_OFF)) ∧
      lvl = (if x.enable_off_mode s.world = false ∧ s0 = c.PD_LATENCY_OFF then c.PD_LATENCY_RET
        else s0) ∧
      set_pd_latency c x resp latency s = some (0, s') ∧
      (s'.mem resp).curr_level = lvl ∧
      s'.trace = s.trace ++ [Event.set_pwrdm_state db.pd lvl] ∧
      (x.enable_off_mode s.world = false → (s'.mem resp).curr_level ≠ c.PD_LATENCY_OFF) := by
  refine ⟨set_pd_latency_scan db.latency latency c.PD_LATENCY_OFF c.PD_LATENCY_MAXLEVEL 0,
    (if x.enable_off_mode s.world = false ∧
        set_pd_latency_scan db.latency latency c.PD_LATENCY_OFF c.PD_LATENCY_MAXLEVEL 0 = c.PD_LATENCY_OFF
      then c.PD_LATENCY_RET
      else set_pd_latency_scan db.latency latency c.PD_LATENCY_OFF c.PD_LATENCY_MAXLEVEL 0),
    do_set_pwrdm_state x db.pd
      (if x.enable_off_mode s.world = false ∧
        set_pd_latency_scan db.latency latency c.PD_LATENCY_OFF c.PD_LATENCY_MAXLEVEL 0 = c.PD_LATENCY_OFF
      then c.PD_LATENCY_RET
      else set_pd_latency_scan db.latency latency c.PD_LATENCY_OFF c.PD_LATENCY_MAXLEVEL 0)
      (s.set_curr_level resp
        (if x.enable_off_mode s.world = false ∧
        set_pd_latency_scan db.latency latency c.PD_LATENCY_OFF c.PD_LATENCY_MAXLEVEL 0 = c.PD_LATENCY_OFF
      then c.PD_LATENCY_RET
      else set_pd_latency_scan db.latency latency c.PD_LATENCY_OFF c.PD_LATENCY_MAXLEVEL 0)),
    ?_, rfl, ?_, ?_, ?_, ?_⟩
  · rcases set_pd_latency_scan_spec db.latency latency c.PD_LATENCY_OFF c.PD_LATENCY_MAXLEVEL 0
      with ⟨i, _, h2, h3, h4, h5⟩ | ⟨h1, h2⟩
    · left
      rw [h5]
      exact ⟨by omega, h3, fun j hj => h4 j (Nat.zero_le j) hj⟩
    · right
      exact ⟨fun j hj => h1 j (Nat.zero_le j) (by omega), h2⟩
  · simp only [set_pd_latency, hdb]
  · simp [do_set_pwrdm_state, State.call, State.set_curr_level]
  · simp [do_set_pwrdm_state, State.call, State.set_curr_level]
  · intro hoff
    simp only [do_set_pwrdm_state, State.call, State.set_curr_level, Function.update_same]
    split_ifs with h
    · exact hconst
    · intro h0
      exact h ⟨hoff, h0⟩

/-- C6 witness: the sample power-domain record (thresholds 10, 50, 200, 200) with
a latency of 30 and off mode enabled. -/
theorem set_pd_latency_selects_witness :
    ∃ (s0 lvl : Nat) (s' : State SampleWorld),
      ((s0 < 4 ∧ (if s0 = 0 then 10 else if s0 = 1 then 50 else 200) < 30 ∧
          ∀ j, j < s0 → ¬ (if j = 0 then 10 else if j = 1 then 50 else 200) < 30) ∨
        ((∀ j, j < 4 → ¬ (if j = 0 then 10 else if j = 1 then 50 else 200) < 30) ∧ s0 = 0)) ∧
      lvl = (if sample_services.enable_off_mode (sample_state 0 0 0 0 0).world = false ∧ s0 = 0
        then 1 else s0) ∧
      set_pd_latency (sample_config true true) sample_services 4 30 (sample_state 0 0 0 0 0)
        = some (0, s') ∧
      (s'.mem 4).curr_level = lvl ∧
      s'.trace = (sample_state 0 0 0 0 0).trace ++ [Event.set_pwrdm_state 9 lvl] ∧
      (sample_services.enable_off_mode (sample_state 0 0 0 0 0).world = false →
        (s'.mem 4).curr_level ≠ 0) :=
  set_pd_latency_selects (sample_config true true) sample_services 4 30 (sample_state 0 0 0 0 0)
    { pwrdm_name := "mpu_pwrdm", pd := 9,
      latency := fun i => if i = 0 then 10 else if i = 1 then 50 else 200 }
    rfl (by decide)

/-- C7 as stated fails: on the sample power-domain record, whose thresholds at
indices 0, 1, 2 are 10, 50, 200, with off mode enabled and a latency of 60,
`set_pd_latency` returns 0, sets `curr_level` to 0 and commands state 0, not 1. -/
theorem set_pd_latency_scenario_counterexample :
    (set_pd_latency (sample_config true true) sample_services 4 60
        (sample_state 0 0 0 0 0)).map (fun r => (r.1, (r.2.mem 4).curr_level, r.2.trace)) =
      some (0, 0, [Event.set_pwrdm_state 9 0]) ∧ (0 : Nat) ≠ 1 :=
  ⟨rfl, by decide⟩

/-- C7 (scenario, amended): with a threshold table whose entries at indices 0, 1, 2
are 10, 50, 200, `enable_off_mode` true and a requested latency of 60,
`set_pd_latency` sets `curr_level` to index 0, the first index whose threshold
(10) is below 60, and commands the power domain to state 0. -/
theorem set_pd_latency_scenario (c : Config) (x : Services W) (resp : Ptr) (s : State W)
    (db : pd_latency_db)
    (hdb : (s.mem resp).resource_data = ResourceData.pd_lat db)
    (hmax : 0 < c.PD_LATENCY_MAXLEVEL)
    (h0 : db.latency 0 = 10) (_h1 : db.latency 1 = 50) (_h2 : db.latency 2 = 200)
    (hoff : x.enable_off_mode s.world = true) :
    ∃ s' : State W,
      set_pd_latency c x resp 60 s = some (0, s') ∧
      (s'.mem resp).curr_level = 0 ∧
      s'.trace = s.trace ++ [Event.set_pwrdm_state db.pd 0] := by
  obtain ⟨n, hn⟩ : ∃ n, c.PD_LATENCY_MAXLEVEL = n + 1 := ⟨c.PD_LATENCY_MAXLEVEL - 1, by omega⟩
  have hscan : set_pd_latency_scan db.latency 60 c.PD_LATENCY_OFF c.PD_LATENCY_MAXLEVEL 0 = 0 := by
    rw [hn]
    simp [set_pd_latency_scan, h0]
  refine ⟨do_set_pwrdm_state x db.pd 0 (s.set_curr_level resp 0), ?_, ?_, ?_⟩
  · simp only [set_pd_latency, hdb, hscan, hoff]
    simp
  · simp [do_set_pwrdm_state, State.call, State.set_curr_level]
  · simp [do_set_pwrdm_state, State.call, State.set_curr_level]

/-- C7 witness: the sample power-domain record with off mode enabled. -/
theorem set_pd_latency_scenario_witness :
    ∃ s' : State SampleWorld,
      set_pd_latency (sample_config true true) sample_services 4 60 (sample_state 0 0 0 0 0)
        = some (0, s') ∧
      (s'.mem 4).curr_level = 0 ∧
      s'.trace = (sample_state 0 0 0 0 0).trace ++ [Event.set_pwrdm_state 9 0] :=
  set_pd_latency_scenario (sample_config true true) sample_services 4 (sample_state 0 0 0 0 0)
    { pwrdm_name := "mpu_pwrdm", pd := 9,
      latency := fun i => if i = 0 then 10 else if i = 1 then 50 else 200 }
    rfl (by decide) rfl rfl rfl rfl

/-! ## Latency constraint -/

/-- C8 (latency constraint transitions): a call `set_latency(resp, latency)` with
`latency != resp->curr_level` sets `curr_level` to `latency` and adds exactly
one QoS call to the trace: (a) when `latency == RES_DEFAULTLEVEL` and the flag
is set, `pm_qos_remove_requirement` for the resource's name, clearing the flag
and returning 0; (b) otherwise, when the flag is set,
`pm_qos_update_requirement` with the new latency, keeping the flag and
returning the outcome of that call; (c) otherwise `pm_qos_add_requirement`
with the new latency, setting the flag and returning the outcome of that call.
The outcome of add/update is returned also when it is non-zero, and
`curr_level` equals the requested latency all the same. -/
theorem set_latency_transitions (c : Config) (x : Services W) (resp : Ptr) (latency : Nat)
    (s : State W) (flag : Nat)
    (hdata : (s.mem resp).resource_data = ResourceData.byte flag)
    (hne : (s.mem resp).curr_level ≠ latency) :
    ∃ (r : Int) (s' : State W),
      set_latency c x resp latency s = some (r, s') ∧
      (s'.mem resp).curr_level = latency ∧
      (latency = c.RES_DEFAULTLEVEL ∧ flag ≠ 0 →
        r = 0 ∧
        s'.trace = s.trace ++ [Event.pm_qos_remove_requirement (s.mem resp).name] ∧
        (s'.mem resp).resource_data = ResourceData.byte 0) ∧
      (¬ (latency = c.RES_DEFAULTLEVEL) ∧ flag ≠ 0 →
        r = (x.pm_qos_update_requirement (s.mem resp).name latency s.world).1 ∧
        s'.trace = s.trace ++ [Event.pm_qos_update_requirement (s.mem resp).name latency] ∧
        (s'.mem resp).resource_data = ResourceData.byte flag) ∧
      (flag = 0 →
        r = (x.pm_qos_add_requirement (s.mem resp).name latency s.world).1 ∧
        s'.trace = s.trace ++ [Event.pm_qos_add_requirement (s.mem resp).name latency] ∧
        (s'.mem resp).resource_data = ResourceData.byte 1) := by
  by_cases hflag : flag = 0
  · refine ⟨(x.pm_qos_add_requirement (s.mem resp).name latency s.world).1,
      (do_pm_qos_add_requirement x (s.mem resp).name latency
        ((s.set_curr_level resp latency).set_resource_data resp (ResourceData.byte 1))).2,
      ?_, ?_, ?_, ?_, ?_⟩
    · simp [set_latency, hne, hdata, hflag, State.set_curr_level, State.set_resource_data,
        do_pm_qos_add_requirement, State.call]
    · simp [State.set_curr_level, State.set_resource_data, do_pm_qos_add_requirement, State.call]
    · intro h
      exact absurd hflag h.2
    · intro h
      exact absurd hflag h.2
    · intro _
      simp [State.set_curr_level, State.set_resource_data, do_pm_qos_add_requirement, State.call]
  · by_cases hdef : latency = c.RES_DEFAULTLEVEL
    · subst hdef
      refine ⟨0,
        (do_pm_qos_remove_requirement x (s.mem resp).name
          (s.set_curr_level resp c.RES_DEFAULTLEVEL)).set_resource_data resp (ResourceData.byte 0),
        ?_, ?_, ?_, ?_, ?_⟩
      · simp [set_latency, hne, hdata, hflag, State.set_curr_level,
          State.set_resource_data, do_pm_qos_remove_requirement, State.call]
      · simp [State.set_curr_level, State.set_resource_data, do_pm_qos_remove_requirement,
          State.call]
      · intro _
        simp [State.set_curr_level, State.set_resource_data, do_pm_qos_remove_requirement,
          State.call]
      · intro h
        exact absurd rfl h.1
      · intro h
        exact absurd h hflag
    · refine ⟨(x.pm_qos_update_requirement (s.mem resp).name latency s.world).1,
        (do_pm_qos_update_requirement x (s.mem resp).name latency
          (s.set_curr_level resp latency)).2,
        ?_, ?_, ?_, ?_, ?_⟩
      · simp [set_latency, hne, hdata, hflag, hdef, State.set_curr_level,
          do_pm_qos_update_requirement, State.call]
      · simp [State.set_curr_level, do_pm_qos_update_requirement, State.call]
      · intro h
        exact absurd h.1 hdef
      · intro _
        simp [State.set_curr_level, do_pm_qos_update_requirement, State.call, hdata]
      · intro h
        exact absurd h hflag

/-- C8 witness: the sample latency record (level 0, flag clear) asked for 100. -/
theorem set_latency_transitions_witness :
    ∃ (r : Int) (s' : State SampleWorld),
      set_latency (sample_config true true) sample_services 3 100 (sample_state 0 0 0 0 0)
        = some (r, s') ∧
      (s'.mem 3).curr_level = 100 ∧
      (100 = (sample_config true true).RES_DEFAULTLEVEL ∧ 0 ≠ 0 →
        r = 0 ∧
        s'.trace = (sample_state 0 0 0 0 0).trace ++
          [Event.pm_qos_remove_requirement ((sample_state 0 0 0 0 0).mem 3).name] ∧
        (s'.mem 3).resource_data = ResourceData.byte 0) ∧
      (¬ (100 = (sample_config true true).RES_DEFAULTLEVEL) ∧ 0 ≠ 0 →
        r = (sample_services.pm_qos_update_requirement ((sample_state 0 0 0 0 0).mem 3).name 100
          (sample_state 0 0 0 0 0).world).1 ∧
        s'.trace = (sample_state 0 0 0 0 0).trace ++
          [Event.pm_qos_update_requirement ((sample_state 0 0 0 0 0).mem 3).name 100] ∧
        (s'.mem 3).resource_data = ResourceData.byte 0) ∧
      (0 = 0 →
        r = (sample_services.pm_qos_add_requirement ((sample_state 0 0 0 0 0).mem 3).name 100
          (sample_state 0 0 0 0 0).world).1 ∧
        s'.trace = (sample_state 0 0 0 0 0).trace ++
          [Event.pm_qos_add_requirement ((sample_state 0 0 0 0 0).mem 3).name 100] ∧
        (s'.mem 3).resource_data = ResourceData.byte 1) :=
  set_latency_transitions (sample_config true true) sample_services 3 100
    (sample_state 0 0 0 0 0) 0 rfl (by decide)

/-! ## Lock counts -/

/-- Inside the range of `int`, `wrap_int` is the identity. -/
theorem wrap_int_of_range (v : Int) (hlo : INT_MIN ≤ v) (hhi : v ≤ INT_MAX) : wrap_int v = v := by
  unfold INT_MIN at hlo
  unfold INT_MAX at hhi
  unfold wrap_int
  omega

/-- C9 as stated fails when the sum leaves the range of `int`: with
`vdd1_lock = 2147483647`, `resource_access_opp_lock(VDD1_OPP, 1)` returns and
stores -2147483648, not the old value plus one. -/
theorem lock_overflow_counterexample :
    (resource_access_opp_lock (sample_config true true) 1 1
        (sample_state 2 2 2147483647 0 0)).1 = -2147483648 ∧
    (resource_access_opp_lock (sample_config true true) 1 1
        (sample_state 2 2 2147483647 0 0)).2.vdd1_lock = -2147483648 ∧
    (sample_state 2 2 2147483647 0 0).vdd1_lock + 1 = 2147483648 :=
  ⟨by decide, by decide, by decide⟩

/-- C9 (lock counter update, amended): for every `delta`,
`resource_access_opp_lock(VDD1_OPP, delta)` sets `vdd1_lock` to its old value
plus `delta` reduced into the range of a 32-bit `int` (the exact sum whenever
that lies between `INT_MIN` and `INT_MAX`), returns the new `vdd1_lock` and
leaves `vdd2_lock` unchanged; symmetrically for a `res` equal to `VDD2_OPP` and
not to `VDD1_OPP`; for every other `res` it returns `-EINVAL` and leaves both
lock counts unchanged. In no case does it change the heap (any resource's
`curr_level`), the other statics or the trace. -/
theorem resource_access_opp_lock_update (c : Config) (res delta : Int) (s : State W) :
    (resource_access_opp_lock c res delta s).2.mem = s.mem ∧
    (resource_access_opp_lock c res delta s).2.trace = s.trace ∧
    (resource_access_opp_lock c res delta s).2.vdd1_resp = s.vdd1_resp ∧
    (resource_access_opp_lock c res delta s).2.vdd2_resp = s.vdd2_resp ∧
    (res = c.VDD1_OPP →
      (resource_access_opp_lock c res delta s).2.vdd1_lock = wrap_int (s.vdd1_lock + delta) ∧
      (INT_MIN ≤ s.vdd1_lock + delta ∧ s.vdd1_lock + delta ≤ INT_MAX →
        (resource_access_opp_lock c res delta s).2.vdd1_lock = s.vdd1_lock + delta) ∧
      (resource_access_opp_lock c res delta s).1 =
        (resource_access_opp_lock c res delta s).2.vdd1_lock ∧
      (resource_access_opp_lock c res delta s).2.vdd2_lock = s.vdd2_lock) ∧
    (res ≠ c.VDD1_OPP → res = c.VDD2_OPP →
      (resource_access_opp_lock c res delta s).2.vdd2_lock = wrap_int (s.vdd2_lock + delta) ∧
      (INT_MIN ≤ s.vdd2_lock + delta ∧ s.vdd2_lock + delta ≤ INT_MAX →
        (resource_access_opp_lock c res delta s).2.vdd2_lock = s.vdd2_lock + delta) ∧
      (resource_access_opp_lock c res delta s).1 =
        (resource_access_opp_lock c res delta s).2.vdd2_lock ∧
      (resource_access_opp_lock c res delta s).2.vdd1_lock = s.vdd1_lock) ∧
    (res ≠ c.VDD1_OPP → res ≠ c.VDD2_OPP →
      (resource_access_opp_lock c res delta s).1 = -c.EINVAL ∧
      (resource_access_opp_lock c res delta s).2.vdd1_lock = s.vdd1_lock ∧
      (resource_access_opp_lock c res delta s).2.vdd2_lock = s.vdd2_lock) := by
  unfold resource_access_opp_lock
  refine ⟨?_, ?_, ?_, ?_, ?_, ?_, ?_⟩
  · split_ifs <;> rfl
  · split_ifs <;> rfl
  · split_ifs <;> rfl
  · split_ifs <;> rfl
  · intro h
    rw [if_pos h]
    exact ⟨rfl, fun hr => wrap_int_of_range _ hr.1 hr.2, rfl, rfl⟩
  · intro h1 h2
    rw [if_neg h1, if_pos h2]
    exact ⟨rfl, fun hr => wrap_int_of_range _ hr.1 hr.2, rfl, rfl⟩
  · intro h1 h2
    rw [if_neg h1, if_neg h2]
    exact ⟨rfl, rfl, rfl⟩

/-- A compute-domain transition leaves both lock counts as they were. -/
theorem set_vdd1_level_locks (c : Config) (x : Services W) (mpu_opps : OppTable) (resp : Ptr)
    (target_level : Nat) (s : State W) :
    (set_vdd1_level c x mpu_opps resp target_level s).2.vdd1_lock = s.vdd1_lock ∧
    (set_vdd1_level c x mpu_opps resp target_level s).2.vdd2_lock = s.vdd2_lock := by
  unfold set_vdd1_level
  by_cases h1 : c.CONFIG_CPU_FREQ = true <;>
  by_cases h2 : (mpu_opps target_level).opp_id ≥ 3 <;>
  by_cases h3 : (s.mem resp).curr_level > target_level <;>
  by_cases h4 : c.CONFIG_OMAP_SMARTREFLEX = true <;>
  by_cases h5 : (mpu_opps target_level).opp_id < 3 <;>
    simp [h1, h2, h3, h4, h5, do_clk_set_rate, do_sr_voltagescale_vcbypass, do_resource_request,
      do_resource_release, do_cpufreq_notify_transition, State.call, State.set_curr_level]

/-- An interconnect-domain transition leaves both lock counts as they were. -/
theorem set_vdd2_level_locks (c : Config) (x : Services W) (l3_opps : OppTable) (resp : Ptr)
    (target_level : Nat) (s : State W) :
    (set_vdd2_level c x l3_opps resp target_level s).2.vdd1_lock = s.vdd1_lock ∧
    (set_vdd2_level c x l3_opps resp target_level s).2.vdd2_lock = s.vdd2_lock := by
  unfold set_vdd2_level
  by_cases h3 : (s.mem resp).curr_level > target_level <;>
  by_cases h4 : c.CONFIG_OMAP_SMARTREFLEX = true <;>
    simp only [h3, h4, if_true, if_false, do_clk_set_rate, do_sr_voltagescale_vcbypass,
      State.call, State.set_curr_level] <;>
    split_ifs <;> exact ⟨rfl, rfl⟩

/-- The four ways a call to the level controller can end: a fault, no action,
a compute-domain transition or an interconnect-domain transition. -/
theorem resource_set_opp_level_cases (c : Config) (x : Services W) (res : Int)
    (target_level : Nat) (flags : Int) (s : State W) :
    resource_set_opp_level c x res target_level flags s = none ∨
    resource_set_opp_level c x res target_level flags s = some (0, s) ∨
    (∃ mpu_opps resp, resource_set_opp_level c x res target_level flags s
      = some (set_vdd1_level c x mpu_opps resp target_level s)) ∨
    (∃ l3_opps resp, resource_set_opp_level c x res target_level flags s
      = some (set_vdd2_level c x l3_opps resp target_level s)) := by
  unfold resource_set_opp_level
  by_cases h1 : res = c.VDD1_OPP
  · simp only [if_pos h1]
    cases s.vdd1_resp with
    | none => exact Or.inl rfl
    | some resp =>
      simp only []
      split_ifs
      · exact Or.inr (Or.inl rfl)
      · split <;> exact Or.inr (Or.inl rfl)
      · split
        · exact Or.inr (Or.inr (Or.inl ⟨_, _, rfl⟩))
        · exact Or.inr (Or.inl rfl)
  · simp only [if_neg h1]
    by_cases h2 : res = c.VDD2_OPP
    · simp only [if_pos h2]
      cases s.vdd2_resp with
      | none => exact Or.inl rfl
      | some resp =>
        simp only []
        split_ifs
        · exact Or.inr (Or.inl rfl)
        · split <;> exact Or.inr (Or.inl rfl)
        · split
          · exact Or.inr (Or.inr (Or.inr ⟨_, _, rfl⟩))
          · exact Or.inr (Or.inl rfl)
    · rw [if_neg h2]
      exact Or.inr (Or.inl rfl)

/-- The level controller leaves both lock counts as they were. -/
theorem resource_set_opp_level_locks (c : Config) (x : Services W) (res : Int)
    (target_level : Nat) (flags : Int) (s : State W) (r : Int × State W)
    (h : resource_set_opp_level c x res target_level flags s = some r) :
    r.2.vdd1_lock = s.vdd1_lock ∧ r.2.vdd2_lock = s.vdd2_lock := by
  rcases resource_set_opp_level_cases c x res target_level flags s with
    h0 | h0 | ⟨t, p, h0⟩ | ⟨t, p, h0⟩
  · rw [h0] at h
    exact absurd h (by simp)
  · rw [h0] at h
    injection h with h
    rw [← h]
    exact ⟨rfl, rfl⟩
  · rw [h0] at h
    injection h with h
    rw [← h]
    exact set_vdd1_level_locks _ _ _ _ _ _
  · rw [h0] at h
    injection h with h
    rw [← h]
    exact set_vdd2_level_locks _ _ _ _ _ _

/-- One call changes each lock count by the delta it carries for that count,
as long as the sum stays in the range of `int`; calls other than
`resource_access_opp_lock` carry no delta. -/
theorem run_op_lock_counts (c : Config) (x : Services W) (op : Op) (s s1 : State W)
    (h : op.run c x s = some s1)
    (h1 : INT_MIN ≤ s.vdd1_lock + op.vdd1_delta c ∧ s.vdd1_lock + op.vdd1_delta c ≤ INT_MAX)
    (h2 : INT_MIN ≤ s.vdd2_lock + op.vdd2_delta c ∧ s.vdd2_lock + op.vdd2_delta c ≤ INT_MAX) :
    s1.vdd1_lock = s.vdd1_lock + op.vdd1_delta c ∧
    s1.vdd2_lock = s.vdd2_lock + op.vdd2_delta c := by
  cases op with
  | init_latency resp =>
    simp only [Op.run, init_latency] at h
    split at h
    · injection h with h
      subst h
      simp [Op.vdd1_delta, Op.vdd2_delta, State.set_resource_data, State.set_curr_level,
        State.set_no_of_users]
    all_goals exact absurd h (by simp)
  | set_latency resp latency =>
    simp only [Op.run, Option.map_eq_some'] at h
    obtain ⟨r, hr, rfl⟩ := h
    unfold set_latency at hr
    split_ifs at hr
    · injection hr with hr
      subst hr
      simp [Op.vdd1_delta, Op.vdd2_delta]
    · dsimp only at hr
      split at hr
      · split_ifs at hr <;> injection hr with hr <;> subst hr <;>
          simp [Op.vdd1_delta, Op.vdd2_delta, State.set_resource_data, State.set_curr_level,
            do_pm_qos_remove_requirement, do_pm_qos_update_requirement,
            do_pm_qos_add_requirement, State.call]
      all_goals exact absurd hr (by simp)
  | init_pd_latency resp =>
    simp only [Op.run, init_pd_latency] at h
    split at h
    · injection h with h
      subst h
      simp [Op.vdd1_delta, Op.vdd2_delta, State.set_resource_data, State.set_curr_level,
        State.set_no_of_users, do_pwrdm_lookup, do_set_pwrdm_state, State.call]
    all_goals exact absurd h (by simp)
  | set_pd_latency resp latency =>
    simp only [Op.run, Option.map_eq_some'] at h
    obtain ⟨r, hr, rfl⟩ := h
    unfold set_pd_latency at hr
    split at hr
    · injection hr with hr
      subst hr
      simp [Op.vdd1_delta, Op.vdd2_delta, State.set_curr_level, do_set_pwrdm_state, State.call]
    all_goals exact absurd hr (by simp)
  | init_opp resp =>
    simp only [Op.run, Option.some.injEq] at h
    subst h
    unfold init_opp
    dsimp only
    split
    · split_ifs <;>
        simp [Op.vdd1_delta, Op.vdd2_delta, State.set_curr_level, State.set_no_of_users,
          do_clk_get, State.call]
    · simp [Op.vdd1_delta, Op.vdd2_delta, State.set_no_of_users]
  | resource_access_opp_lock res delta =>
    simp only [Op.run, Option.some.injEq] at h
    subst h
    simp only [Op.vdd1_delta, Op.vdd2_delta] at h1 h2 ⊢
    unfold resource_access_opp_lock
    by_cases e1 : res = c.VDD1_OPP
    · simp only [if_pos e1] at h1 ⊢
      exact ⟨wrap_int_of_range _ h1.1 h1.2, by simp⟩
    · simp only [if_neg e1] at h2 ⊢
      by_cases e2 : res = c.VDD2_OPP
      · simp only [if_pos e2] at h2 ⊢
        exact ⟨by simp, wrap_int_of_range _ h2.1 h2.2⟩
      · simp only [if_neg e2]
        simp
  | resource_set_opp_level res target_level flags =>
    simp only [Op.run, Option.map_eq_some'] at h
    obtain ⟨r, hr, rfl⟩ := h
    have := resource_set_opp_level_locks c x res target_level flags s r hr
    simp [Op.vdd1_delta, Op.vdd2_delta, this.1, this.2]
  | set_opp resp target_level =>
    simp only [Op.run, Option.map_eq_some'] at h
    obtain ⟨r, hr, rfl⟩ := h
    unfold set_opp at hr
    split_ifs at hr
    · simp only [Option.map_eq_some'] at hr
      obtain ⟨r0, hr0, rfl⟩ := hr
      have := resource_set_opp_level_locks c x _ target_level 0 s r0 hr0
      simp [Op.vdd1_delta, Op.vdd2_delta, this.1, this.2]
    · dsimp only at hr
      split at hr
      · exact absurd hr (by simp)
      · simp only [Option.map_eq_some'] at hr
        obtain ⟨r0, hr0, rfl⟩ := hr
        have := resource_set_opp_level_locks c x _ _ 0 s r0 hr0
        simp [Op.vdd1_delta, Op.vdd2_delta, this.1, this.2]
    · injection hr with hr
      subst hr
      simp [Op.vdd1_delta, Op.vdd2_delta]
  | validate_opp resp target_level =>
    simp only [Op.run, validate_opp, Option.some.injEq] at h
    subst h
    simp [Op.vdd1_delta, Op.vdd2_delta]
  | init_freq resp =>
    simp only [Op.run, Option.some.injEq] at h
    subst h
    unfold init_freq
    dsimp only
    split
    · split_ifs <;>
        simp [Op.vdd1_delta, Op.vdd2_delta, State.set_curr_level, State.set_no_of_users]
    · simp [Op.vdd1_delta, Op.vdd2_delta, State.set_no_of_users]
  | set_freq resp target_level =>
    simp only [Op.run, Option.some.injEq] at h
    subst h
    unfold set_freq
    dsimp only
    split
    · split_ifs <;>
        simp [Op.vdd1_delta, Op.vdd2_delta, State.set_curr_level, do_resource_request,
          State.call]
    · simp [Op.vdd1_delta, Op.vdd2_delta]
  | validate_freq resp target_level =>
    simp only [Op.run, validate_freq, Option.some.injEq] at h
    subst h
    simp [Op.vdd1_delta, Op.vdd2_delta]

/-- Along a sequence of calls each lock count is its starting value plus the
deltas passed for it, as long as every running total stays in the range of `int`. -/
theorem run_ops_lock_counts (c : Config) (x : Services W) :
    ∀ (ops : List Op) (s s' : State W),
      run_ops c x ops s = some s' →
      (∀ k, k ≤ ops.length →
        INT_MIN ≤ s.vdd1_lock + vdd1_delta_sum c (ops.take k) ∧
        s.vdd1_lock + vdd1_delta_sum c (ops.take k) ≤ INT_MAX ∧
        INT_MIN ≤ s.vdd2_lock + vdd2_delta_sum c (ops.take k) ∧
        s.vdd2_lock + vdd2_delta_sum c (ops.take k) ≤ INT_MAX) →
      s'.vdd1_lock = s.vdd1_lock + vdd1_delta_sum c ops ∧
      s'.vdd2_lock = s.vdd2_lock + vdd2_delta_sum c ops := by
  intro ops
  induction ops with
  | nil =>
    intro s s' h _
    simp only [run_ops, Option.some.injEq] at h
    subst h
    simp [vdd1_delta_sum, vdd2_delta_sum]
  | cons op ops ih =>
    intro s s' h hr
    simp only [run_ops, Option.bind_eq_some] at h
    obtain ⟨s1, hs1, hrest⟩ := h
    have hk1 := hr 1 (by simp)
    simp only [List.take_succ_cons, List.take_zero, vdd1_delta_sum, vdd2_delta_sum,
      List.map_cons, List.map_nil, List.sum_cons, List.sum_nil, add_zero] at hk1
    have hstep := run_op_lock_counts c x op s s1 hs1 ⟨hk1.1, hk1.2.1⟩ ⟨hk1.2.2.1, hk1.2.2.2⟩
    have htail := ih s1 s' hrest (by
      intro k hk
      have := hr (k + 1) (by simp; omega)
      simp only [List.take_succ_cons, vdd1_delta_sum, vdd2_delta_sum, List.map_cons,
        List.sum_cons] at this
      simp only [vdd1_delta_sum, vdd2_delta_sum, hstep.1, hstep.2]
      omega)
    simp only [vdd1_delta_sum, vdd2_delta_sum, List.map_cons, List.sum_cons] at htail ⊢
    rw [htail.1, htail.2, hstep.1, hstep.2]
    constructor <;> ring

/-- C10 as stated fails: from the initial state, the single call
`resource_access_opp_lock(VDD1_OPP, -1)` leaves `vdd1_lock` at -1. -/
theorem lock_count_negative_counterexample :
    (run_ops (sample_config true true) sample_services [Op.resource_access_opp_lock 1 (-1)]
        (initial_state (sample_mem 2 2) sample_world)).map (fun s => s.vdd1_lock) = some (-1) ∧
    (-1 : Int) < 0 :=
  ⟨by decide, by decide⟩

/-- C10 (lock counts, amended): in every state reached from the initial state
(`vdd1_lock = vdd2_lock = 0`) by a sequence of calls to the operations of the
file in which, for each domain, every running total of the deltas passed to
`resource_access_opp_lock` for that domain lies between 0 and `INT_MAX` (no
unlock without an earlier lock), both `vdd1_lock >= 0` and `vdd2_lock >= 0`
hold; each count equals the total of the deltas passed for it, and no other
operation changes it. -/
theorem lock_counts_nonneg_of_balanced (c : Config) (x : Services W) (ops : List Op)
    (mem : Ptr → shared_resource) (w : W) (s : State W)
    (hbal : ∀ k, k ≤ ops.length →
      0 ≤ vdd1_delta_sum c (ops.take k) ∧ vdd1_delta_sum c (ops.take k) ≤ INT_MAX ∧
      0 ≤ vdd2_delta_sum c (ops.take k) ∧ vdd2_delta_sum c (ops.take k) ≤ INT_MAX)
    (hrun : run_ops c x ops (initial_state mem w) = some s) :
    0 ≤ s.vdd1_lock ∧ 0 ≤ s.vdd2_lock ∧
    s.vdd1_lock = vdd1_delta_sum c ops ∧ s.vdd2_lock = vdd2_delta_sum c ops := by
  have h := run_ops_lock_counts c x ops (initial_state mem w) s hrun (by
    intro k hk
    have := hbal k hk
    simp only [initial_state, zero_add, INT_MIN]
    omega)
  simp only [initial_state, zero_add] at h
  have hlast := hbal ops.length (le_refl _)
  rw [List.take_length] at hlast
  rw [h.1, h.2]
  exact ⟨hlast.1, hlast.2.2.1, rfl, rfl⟩

/-- C10 witness: both OPP records initialised, the compute domain locked, a level
request made while it is locked, the compute domain unlocked, the interconnect
domain locked twice over. -/
theorem lock_counts_nonneg_of_balanced_witness :
    ∃ s : State SampleWorld,
      run_ops (sample_config true true) sample_services
        [Op.init_opp 1, Op.init_opp 2, Op.resource_access_opp_lock 1 1,
          Op.resource_set_opp_level 1 3 0, Op.resource_access_opp_lock 1 (-1),
          Op.resource_access_opp_lock 2 2]
        (initial_state (sample_mem 2 2) sample_world) = some s ∧
      0 ≤ s.vdd1_lock ∧ 0 ≤ s.vdd2_lock ∧
      s.vdd1_lock = vdd1_delta_sum (sample_config true true)
        [Op.init_opp 1, Op.init_opp 2, Op.resource_access_opp_lock 1 1,
          Op.resource_set_opp_level 1 3 0, Op.resource_access_opp_lock 1 (-1),
          Op.resource_access_opp_lock 2 2] ∧
      s.vdd2_lock = vdd2_delta_sum (sample_config true true)
        [Op.init_opp 1, Op.init_opp 2, Op.resource_access_opp_lock 1 1,
          Op.resource_set_opp_level 1 3 0, Op.resource_access_opp_lock 1 (-1),
          Op.resource_access_opp_lock 2 2] :=
  ⟨_, rfl, lock_counts_nonneg_of_balanced (sample_config true true) sample_services
    [Op.init_opp 1, Op.init_opp 2, Op.resource_access_opp_lock 1 1,
      Op.resource_set_opp_level 1 3 0, Op.resource_access_opp_lock 1 (-1),
      Op.resource_access_opp_lock 2 2]
    (sample_mem 2 2) sample_world _ (by decide) rfl⟩

/-! ## Throughput to OPP level -/

/-- The scan of `set_opp` over a loaded table stops at the first index of its
range whose rate reaches the required frequency and sets `target_level` to it;
when the range has none it leaves `target_level` alone and ends one past the range. -/
theorem set_opp_scan_spec (tbl : OppTable) (req_l3_freq : Nat) :
    ∀ n ind target_level : Nat,
      (∃ i, ind ≤ i ∧ i < ind + n ∧ (tbl i).rate ≥ req_l3_freq ∧
          (∀ j, ind ≤ j → j < i → (tbl j).rate < req_l3_freq) ∧
          set_opp_scan (some tbl) req_l3_freq n ind target_level = some (i, i)) ∨
      ((∀ j, ind ≤ j → j < ind + n → (tbl j).rate < req_l3_freq) ∧
          set_opp_scan (some tbl) req_l3_freq n ind target_level
            = some (ind + n, target_level)) := by
  intro n
  induction n with
  | zero =>
    intro ind target_level
    right
    refine ⟨?_, rfl⟩
    intro j h1 h2
    omega
  | succ n ih =>
    intro ind target_level
    by_cases h : (tbl ind).rate ≥ req_l3_freq
    · left
      refine ⟨ind, le_refl _, by omega, h, ?_, ?_⟩
      · intro j h1 h2
        omega
      · simp only [set_opp_scan, if_pos h]
    · have hstep : set_opp_scan (some tbl) req_l3_freq (n + 1) ind target_level =
          set_opp_scan (some tbl) req_l3_freq n (ind + 1) target_level := by
        simp only [set_opp_scan, if_neg h]
      have hlt : (tbl ind).rate < req_l3_freq := Nat.lt_of_not_le h
      rcases ih (ind + 1) target_level with ⟨i, h1, h2, h3, h4, h5⟩ | ⟨h1, h2⟩
      · left
        refine ⟨i, by omega, by omega, h3, ?_, by rw [hstep, h5]⟩
        intro j hj1 hj2
        by_cases hj : j = ind
        · rw [hj]
          exact hlt
        · exact h4 j (by omega) hj2
      · right
        refine ⟨?_, by rw [hstep, h2, Nat.add_assoc, Nat.add_comm 1 n]⟩
        intro j hj1 hj2
        by_cases hj : j = ind
        · rw [hj]
          exact hlt
        · exact h1 j (by omega) (by omega)

/-- C11 as stated fails twice over. On the sample interconnect table level 1 has
rate 0, so for throughput 0 (required frequency 0) the lowest level from 1 up
that satisfies it is 1; `set_opp` nevertheless makes the calls of a transition
to level 2 (clock set to 83 MHz), not those of a transition to level 1. And
for throughput 4294968 no sample level reaches `(t * 1000) / 4`, so the level
would be `MAX_VDD2_OPP = 3`, the current one; the 32-bit product wraps and
`set_opp` again makes the calls of a transition to level 2. -/
theorem set_opp_level_one_counterexample :
    (sample_l3_opps 1).rate ≥ (0 * 1000) / 4 ∧
    (set_opp (sample_config true true) sample_services 2 0 (sample_state 3 3 0 0 0)).map
        (fun r => r.2.trace) =
      some [Event.clk_set_rate 8 83000000, Event.sr_voltagescale_vcbypass (512 ||| 2) 36] ∧
    (resource_set_opp_level (sample_config true true) sample_services 2 1 0
        (sample_state 3 3 0 0 0)).map (fun r => r.2.trace) =
      some [Event.clk_set_rate 8 0, Event.sr_voltagescale_vcbypass (512 ||| 1) 30] ∧
    (sample_l3_opps 1).rate < (4294968 * 1000) / 4 ∧
    (sample_l3_opps 2).rate < (4294968 * 1000) / 4 ∧
    (sample_l3_opps 3).rate < (4294968 * 1000) / 4 ∧
    (set_opp (sample_config true true) sample_services 2 4294968 (sample_state 3 3 0 0 0)).map
        (fun r => r.2.trace) =
      some [Event.clk_set_rate 8 83000000, Event.sr_voltagescale_vcbypass (512 ||| 2) 36] ∧
    (resource_set_opp_level (sample_config true true) sample_services 2 3 0
        (sample_state 3 3 0 0 0)).map (fun r => r.2.trace) = some [] :=
  ⟨by decide, rfl, rfl, by decide, by decide, by decide, rfl, rfl⟩

/-- C11 (throughput to OPP level, amended): for every throughput `t` with
`t * 1000` below `2^32` passed to `set_opp` on the interconnect resource, with
`f = (t * 1000) / 4`, `set_opp` is the call
`resource_set_opp_level(VDD2_OPP, L, 0)` with its outcome replaced by 0, where
`L` is the lowest level from 2 up to `MAX_VDD2_OPP` with `l3_opps[L].rate >= f`,
or `MAX_VDD2_OPP` when no such level exists. On the compute resource the target
is passed unchanged to `resource_set_opp_level(VDD1_OPP, target, 0)`. -/
theorem set_opp_throughput_level (c : Config) (x : Services W) (resp : Ptr) (t : Nat)
    (s : State W) (l3_opps : OppTable)
    (hmax : 2 ≤ c.MAX_VDD2_OPP)
    (hl3 : c.l3_opps = some l3_opps)
    (h1 : some resp ≠ s.vdd1_resp) (h2 : some resp = s.vdd2_resp)
    (ht : t * 1000 < 4294967296) :
    (∃ L : Nat,
      ((2 ≤ L ∧ L ≤ c.MAX_VDD2_OPP ∧ (l3_opps L).rate ≥ (t * 1000) / 4 ∧
          ∀ j, 2 ≤ j → j < L → (l3_opps j).rate < (t * 1000) / 4) ∨
        ((∀ j, 2 ≤ j → j ≤ c.MAX_VDD2_OPP → (l3_opps j).rate < (t * 1000) / 4) ∧
          L = c.MAX_VDD2_OPP)) ∧
      set_opp c x resp t s =
        (resource_set_opp_level c x c.VDD2_OPP L 0 s).map (fun r => (0, r.2))) ∧
    (∀ (resp1 : Ptr) (target_level : Nat), some resp1 = s.vdd1_resp →
      set_opp c x resp1 target_level s =
        (resource_set_opp_level c x c.VDD1_OPP target_level 0 s).map (fun r => (0, r.2))) := by
  have hf : wrap_ulong (t * 1000) / 4 = (t * 1000) / 4 := by
    unfold wrap_ulong
    rw [Nat.mod_eq_of_lt ht]
  constructor
  · rcases set_opp_scan_spec l3_opps ((t * 1000) / 4) (c.MAX_VDD2_OPP + 1 - 2) 2 t with
      ⟨i, hi1, hi2, hi3, hi4, hi5⟩ | ⟨hn1, hn2⟩
    · refine ⟨i, Or.inl ⟨hi1, by omega, hi3, hi4⟩, ?_⟩
      have hle : ¬ i > c.MAX_VDD2_OPP := by omega
      simp only [set_opp, if_neg h1, if_pos h2, hf, hl3, hi5, if_neg hle]
    · refine ⟨c.MAX_VDD2_OPP, Or.inr ⟨fun j hj1 hj2 => hn1 j hj1 (by omega), rfl⟩, ?_⟩
      have hgt : 2 + (c.MAX_VDD2_OPP + 1 - 2) > c.MAX_VDD2_OPP := by omega
      have hm : 2 + (c.MAX_VDD2_OPP + 1 - 2) - 1 = c.MAX_VDD2_OPP := by omega
      simp only [set_opp, if_neg h1, if_pos h2, hf, hl3, hn2, if_pos hgt, hm]
  · intro resp1 target_level hr
    simp only [set_opp, if_pos hr]

/-- C11 witness: throughput 400000 on the sample interconnect resource needs
100 MHz, and the lowest sample level reaching it is 3 (166 MHz). -/
theorem set_opp_throughput_level_witness :
    (400000 * 1000) / 4 = 100000000 ∧
    (sample_l3_opps 2).rate < 100000000 ∧ (sample_l3_opps 3).rate ≥ 100000000 ∧
    set_opp (sample_config true true) sample_services 2 400000 (sample_state 2 2 0 0 0) =
      (resource_set_opp_level (sample_config true true) sample_services 2 3 0
        (sample_state 2 2 0 0 0)).map (fun r => (0, r.2)) ∧
    ((∃ L : Nat,
      ((2 ≤ L ∧ L ≤ (sample_config true true).MAX_VDD2_OPP ∧
          (sample_l3_opps L).rate ≥ (400000 * 1000) / 4 ∧
          ∀ j, 2 ≤ j → j < L → (sample_l3_opps j).rate < (400000 * 1000) / 4) ∨
        ((∀ j, 2 ≤ j → j ≤ (sample_config true true).MAX_VDD2_OPP →
            (sample_l3_opps j).rate < (400000 * 1000) / 4) ∧
          L = (sample_config true true).MAX_VDD2_OPP)) ∧
      set_opp (sample_config true true) sample_services 2 400000 (sample_state 2 2 0 0 0) =
        (resource_set_opp_level (sample_config true true) sample_services
          (sample_config true true).VDD2_OPP L 0 (sample_state 2 2 0 0 0)).map
            (fun r => (0, r.2))) ∧
    (∀ (resp1 : Ptr) (target_level : Nat), some resp1 = (sample_state 2 2 0 0 0).vdd1_resp →
      set_opp (sample_config true true) sample_services resp1 target_level
          (sample_state 2 2 0 0 0) =
        (resource_set_opp_level (sample_config true true) sample_services
          (sample_config true true).VDD1_OPP target_level 0 (sample_state 2 2 0 0 0)).map
            (fun r => (0, r.2)))) :=
  ⟨by decide, by decide, by decide, rfl,
    set_opp_throughput_level (sample_config true true) sample_services 2 400000
      (sample_state 2 2 0 0 0) sample_l3_opps (by decide) rfl (by decide) rfl (by decide)⟩

/-! ## Same-level requests -/

/-- A call to the level controller whose domain resource exists returns 0 with
the state unchanged when the target is the current level or a table is absent. -/
theorem resource_set_opp_level_absorbed (c : Config) (x : Services W) (res : Int)
    (target_level : Nat) (flags : Int) (s : State W) (resp : Ptr)
    (hres : res = c.VDD1_OPP ∨ res = c.VDD2_OPP)
    (hresp : s.domain_resp c res = some resp)
    (h : (s.mem resp).curr_level = target_level ∨
      c.mpu_opps = none ∨ c.dsp_opps = none ∨ c.l3_opps = none) :
    resource_set_opp_level c x res target_level flags s = some (0, s) := by
  by_cases h1 : res = c.VDD1_OPP
  · subst h1
    simp only [State.domain_resp, if_true] at hresp
    simp only [resource_set_opp_level, if_true, hresp]
    split_ifs <;> first | rfl | (split <;> first | rfl | (exfalso; simp_all))
  · have h2 : res = c.VDD2_OPP := by
      rcases hres with h | h
      · exact absurd h h1
      · exact h
    subst h2
    simp only [State.domain_resp, if_neg h1] at hresp
    simp only [resource_set_opp_level, if_neg h1, if_true, hresp]
    split_ifs <;> first | rfl | (split <;> first | rfl | (exfalso; simp_all))

/-- C12 as stated fails for three of the four operations. On the sample
platform, `set_pd_latency` asked for the current level 0 of the power-domain
record still calls `set_pwrdm_state`; `set_freq` asked for the current level 0
of the frequency record still issues its `resource_request`; and `set_opp` on
the interconnect record at level 3 asked for 3 reads it as a throughput, maps
it to level 2 and performs that transition. -/
theorem same_level_not_noop_counterexample :
    ((sample_state 0 0 0 0 0).mem 4).curr_level = 0 ∧
    (set_pd_latency (sample_config true true) sample_services 4 0
        (sample_state 0 0 0 0 0)).map (fun r => r.2.trace) =
      some [Event.set_pwrdm_state 9 0] ∧
    ((sample_state 0 0 0 0 0).mem 5).curr_level = 0 ∧
    (set_freq (sample_config true true) sample_services 5 0 (sample_state 0 0 0 0 0)).2.trace =
      [Event.resource_request "vdd1_opp" Device.dummy_mpu_dev 0] ∧
    ((sample_state 3 3 0 0 0).mem 2).curr_level = 3 ∧
    (set_opp (sample_config true true) sample_services 2 3 (sample_state 3 3 0 0 0)).map
        (fun r => r.2.trace) =
      some [Event.clk_set_rate 8 83000000, Event.sr_voltagescale_vcbypass (512 ||| 2) 36] :=
  ⟨rfl, rfl, rfl, rfl, rfl, rfl⟩

/-- C12 (same-level request, amended): for every resource state, `set_latency`
called with the resource's current `curr_level`, and `set_opp` called on the
compute resource (`resp == vdd1_resp`) with its current `curr_level`, return 0
and leave the whole state unchanged, trace included, so that no external call
is made. -/
theorem same_level_is_noop (c : Config) (x : Services W) (resp : Ptr) (s : State W) :
    set_latency c x resp (s.mem resp).curr_level s = some (0, s) ∧
    (some resp = s.vdd1_resp →
      set_opp c x resp (s.mem resp).curr_level s = some (0, s)) := by
  constructor
  · simp only [set_latency, if_true]
  · intro h
    have hr : s.domain_resp c c.VDD1_OPP = some resp := by
      simp only [State.domain_resp, if_true]
      exact h.symm
    simp only [set_opp, if_pos h]
    rw [resource_set_opp_level_absorbed c x c.VDD1_OPP _ 0 s resp (Or.inl rfl) hr (Or.inl rfl)]
    rfl

/-! ## Clock failures -/

/-- C13 at its failing input: on the sample platform with both build switches on,
the compute domain at level 3, unlocked, is asked for level 2 while
`clk_set_rate` fails with -5. The call returns 0, lowers the voltage after the
failed clock call, releases the interconnect constraint and sends the
post-change notification. -/
theorem compute_clock_failure_not_surfaced :
    (sample_services.clk_set_rate 7 250000000 (sample_state 3 3 0 0 (-5)).world).1 = -5 ∧
    (resource_set_opp_level (sample_config true true) sample_services 1 2 0
        (sample_state 3 3 0 0 (-5))).map (fun r => (r.1, r.2.trace)) =
      some (0,
        [Event.cpufreq_notify_transition 500000 250000 0 CpufreqPhase.CPUFREQ_PRECHANGE,
          Event.clk_set_rate 7 250000000,
          Event.sr_voltagescale_vcbypass (256 ||| 2) 38,
          Event.resource_release "vdd2_opp" Device.vdd2_dev,
          Event.cpufreq_notify_transition 500000 250000 0 CpufreqPhase.CPUFREQ_POSTCHANGE]) :=
  ⟨rfl, rfl⟩

/-! ## Frequency resource -/

/-- C14 (frequency resource request): with `mpu_opps` and `dsp_opps` present,
`set_freq` on the resource named "mpu_freq" returns 0, sets `curr_level` to the
target rate and adds exactly one call,
`resource_request("vdd1_opp", &dummy_mpu_dev, get_opp(mpu_opps + MAX_VDD1_OPP, target))`;
on "dsp_freq" the same with `&dummy_dsp_dev`, a different device, and
`get_opp(dsp_opps + MAX_VDD1_OPP, target)`. This holds for every behaviour of
the request. When either table is absent, `set_freq` returns 0 and leaves the
state, trace included, unchanged. -/
theorem set_freq_requests (c : Config) (x : Services W) (resp : Ptr) (target_level : Nat)
    (s : State W) :
    (∀ mpu_opps dsp_opps : OppTable, c.mpu_opps = some mpu_opps → c.dsp_opps = some dsp_opps →
      ((s.mem resp).name = "mpu_freq" →
        (set_freq c x resp target_level s).1 = 0 ∧
        (set_freq c x resp target_level s).2.trace = s.trace ++
          [Event.resource_request "vdd1_opp" Device.dummy_mpu_dev
            (c.get_opp mpu_opps c.MAX_VDD1_OPP target_level)] ∧
        ((set_freq c x resp target_level s).2.mem resp).curr_level = target_level) ∧
      ((s.mem resp).name = "dsp_freq" →
        (set_freq c x resp target_level s).1 = 0 ∧
        (set_freq c x resp target_level s).2.trace = s.trace ++
          [Event.resource_request "vdd1_opp" Device.dummy_dsp_dev
            (c.get_opp dsp_opps c.MAX_VDD1_OPP target_level)] ∧
        ((set_freq c x resp target_level s).2.mem resp).curr_level = target_level)) ∧
    Device.dummy_dsp_dev ≠ Device.dummy_mpu_dev ∧
    (c.mpu_opps = none ∨ c.dsp_opps = none → set_freq c x resp target_level s = (0, s)) := by
  refine ⟨?_, by decide, ?_⟩
  · intro mpu_opps dsp_opps hm hd
    constructor
    · intro hn
      simp [set_freq, hm, hd, hn, do_resource_request, State.call, State.set_curr_level]
    · intro hn
      have hn2 : ¬ (s.mem resp).name = "mpu_freq" := by
        rw [hn]
        decide
      simp [set_freq, hm, hd, hn, do_resource_request, State.call, State.set_curr_level]
  · intro h
    unfold set_freq
    rcases h with h | h
    · rw [h]
    · rw [h]
      cases c.mpu_opps <;> rfl

/-! ## Table-unavailable requests -/

/-- C15 at its failing input: with no OPP table loaded, `init_opp` on both OPP
records returns before it sets `vdd1_resp` and `vdd2_resp`, which stay `NULL`;
a following `resource_set_opp_level(VDD1_OPP, 3, 0)` then dereferences the
`NULL` pointer at line 203, before the table check of line 206, instead of
returning 0. -/
theorem table_check_after_null_dereference :
    (run_ops sample_config_no_tables sample_services [Op.init_opp 1, Op.init_opp 2]
        (initial_state (sample_mem 2 2) sample_world)).map
          (fun s => (s.vdd1_resp, s.vdd2_resp, s.trace)) = some (none, none, []) ∧
    (run_ops sample_config_no_tables sample_services
        [Op.init_opp 1, Op.init_opp 2, Op.resource_set_opp_level 1 3 0]
        (initial_state (sample_mem 2 2) sample_world)).isNone = true ∧
    (run_ops sample_config_no_tables sample_services
        [Op.init_opp 1, Op.init_opp 2, Op.resource_set_opp_level 2 3 0]
        (initial_state (sample_mem 2 2) sample_world)).isNone = true :=
  ⟨rfl, rfl, rfl⟩

/-! ## Level read-back -/

/-- The heap and world a compute-domain transition leaves behind: the level of
the resource is read from `curr_vdd1_prcm_set` in the world `w` that the
clock, voltage and release calls left, and only the post-change notification,
when compiled in, follows. -/
theorem set_vdd1_level_read_back (c : Config) (x : Services W) (mpu_opps : OppTable)
    (resp : Ptr) (target_level : Nat) (s : State W) :
    ∃ w : W,
      (set_vdd1_level c x mpu_opps resp target_level s).2.world =
        (if c.CONFIG_CPU_FREQ = true then
          x.cpufreq_notify_transition
            (c.get_freq mpu_opps c.MAX_VDD1_OPP (x.curr_vdd1_prcm_set s.world).opp_id / 1000)
            (c.get_freq mpu_opps c.MAX_VDD1_OPP target_level / 1000) 0
            CpufreqPhase.CPUFREQ_POSTCHANGE w
        else w) ∧
      (set_vdd1_level c x mpu_opps resp target_level s).2.mem =
        Function.update s.mem resp
          { s.mem resp with curr_level := (x.curr_vdd1_prcm_set w).opp_id } := by
  unfold set_vdd1_level
  by_cases h1 : c.CONFIG_CPU_FREQ = true <;>
  by_cases h2 : (mpu_opps target_level).opp_id ≥ 3 <;>
  by_cases h3 : (s.mem resp).curr_level > target_level <;>
  by_cases h4 : c.CONFIG_OMAP_SMARTREFLEX = true <;>
  by_cases h5 : (mpu_opps target_level).opp_id < 3 <;>
    simp only [h1, h2, h3, h4, h5, if_true, if_false, Bool.false_eq_true, do_clk_set_rate,
      do_sr_voltagescale_vcbypass, do_resource_request, do_resource_release,
      do_cpufreq_notify_transition, State.call, State.set_curr_level] <;>
    exact ⟨_, rfl, rfl⟩

/-- C16 (level read-back): after a call `resource_set_opp_level(res, target, flags)`
that performs a transition and returns 0, `curr_level` of the domain's resource
is the `opp_id` of the domain's current-OPP record (`curr_vdd1_prcm_set` for
`VDD1_OPP`, `curr_vdd2_prcm_set` for `VDD2_OPP`) in the world `w` left by the
clock, voltage and release calls of the transition, after which only the
post-change notification of the compute domain may follow; it is this value
whatever the target was, and no other record of the heap is written. -/
theorem level_read_back (c : Config) (x : Services W) (res : Int)
    (target_level : Nat) (flags : Int) (s s' : State W) (resp : Ptr)
    (mpu_opps dsp_opps l3_opps : OppTable)
    (hres : res = c.VDD1_OPP ∨ res = c.VDD2_OPP)
    (hmpu : c.mpu_opps = some mpu_opps) (hdsp : c.dsp_opps = some dsp_opps)
    (hl3 : c.l3_opps = some l3_opps)
    (hresp : s.domain_resp c res = some resp)
    (hlock : flags = c.OPP_IGNORE_LOCK ∨ s.domain_lock c res = 0)
    (hne : (s.mem resp).curr_level ≠ target_level)
    (hret : resource_set_opp_level c x res target_level flags s = some (0, s')) :
    ∃ w : W,
      s'.world =
        (if res = c.VDD1_OPP ∧ c.CONFIG_CPU_FREQ = true then
          x.cpufreq_notify_transition
            (c.get_freq mpu_opps c.MAX_VDD1_OPP (x.curr_vdd1_prcm_set s.world).opp_id / 1000)
            (c.get_freq mpu_opps c.MAX_VDD1_OPP target_level / 1000) 0
            CpufreqPhase.CPUFREQ_POSTCHANGE w
        else w) ∧
      (s'.mem resp).curr_level =
        (if res = c.VDD1_OPP then x.curr_vdd1_prcm_set w else x.curr_vdd2_prcm_set w).opp_id ∧
      (s'.mem resp).name = (s.mem resp).name ∧
      (s'.mem resp).no_of_users = (s.mem resp).no_of_users ∧
      (∀ p : Ptr, p ≠ resp → s'.mem p = s.mem p) := by
  by_cases h1 : res = c.VDD1_OPP
  · subst h1
    simp only [State.domain_resp, State.domain_lock, if_true] at hresp hlock
    rw [resource_set_opp_level_vdd1 c x target_level flags s resp mpu_opps dsp_opps l3_opps
      hresp hne hmpu hdsp hl3 hlock] at hret
    have hs : s' = (set_vdd1_level c x mpu_opps resp target_level s).2 := by
      injection hret with h
      rw [h]
    obtain ⟨w, hw, hm⟩ := set_vdd1_level_read_back c x mpu_opps resp target_level s
    refine ⟨w, ?_, ?_, ?_, ?_, ?_⟩
    · rw [hs, hw]
      simp only [true_and]
    · rw [hs, hm]
      simp
    · rw [hs, hm]
      simp
    · rw [hs, hm]
      simp
    · intro p hp
      rw [hs, hm, Function.update_noteq hp]
  · have h2 : res = c.VDD2_OPP := by
      rcases hres with h | h
      · exact absurd h h1
      · exact h
    subst h2
    simp only [State.domain_resp, State.domain_lock, if_neg h1] at hresp hlock
    rw [resource_set_opp_level_vdd2 c x target_level flags s resp mpu_opps dsp_opps l3_opps
      h1 hresp hne hmpu hdsp hl3 hlock] at hret
    have hs : s' = (set_vdd2_level c x l3_opps resp target_level s).2 := by
      injection hret with h
      rw [h]
    have h0 : (set_vdd2_level c x l3_opps resp target_level s).1 = 0 := by
      injection hret with h
      rw [h]
    have hm := set_vdd2_level_mem c x l3_opps resp target_level s
    rw [h0] at hm
    simp only [ne_eq, not_true_eq_false, if_false] at hm
    refine ⟨s'.world, ?_, ?_, ?_, ?_, ?_⟩
    · simp only [h1, false_and, if_false]
    · rw [if_neg h1]
      conv_lhs => rw [hs, hm]
      rw [hs]
      simp
    · rw [hs, hm]
      simp
    · rw [hs, hm]
      simp
    · intro p hp
      rw [hs, hm, Function.update_noteq hp]

/-- C16 witness: the sample compute domain at level 2, unlocked, asked for level 3.
The sample clock leaves `curr_vdd1_prcm_set` at OPP 2, so the level read back
is 2 and not the target. -/
theorem level_read_back_witness :
    ((set_vdd1_level (sample_config true true) sample_services sample_mpu_opps 1 3
        (sample_state 2 2 0 0 0)).2.mem 1).curr_level = 2 ∧
    ∃ w : SampleWorld,
      (set_vdd1_level (sample_config true true) sample_services sample_mpu_opps 1 3
          (sample_state 2 2 0 0 0)).2.world =
        (if (1 : Int) = (sample_config true true).VDD1_OPP ∧
            (sample_config true true).CONFIG_CPU_FREQ = true then
          sample_services.cpufreq_notify_transition
            ((sample_config true true).get_freq sample_mpu_opps
              (sample_config true true).MAX_VDD1_OPP
              (sample_services.curr_vdd1_prcm_set (sample_state 2 2 0 0 0).world).opp_id / 1000)
            ((sample_config true true).get_freq sample_mpu_opps
              (sample_config true true).MAX_VDD1_OPP 3 / 1000) 0
            CpufreqPhase.CPUFREQ_POSTCHANGE w
        else w) ∧
      ((set_vdd1_level (sample_config true true) sample_services sample_mpu_opps 1 3
          (sample_state 2 2 0 0 0)).2.mem 1).curr_level =
        (if (1 : Int) = (sample_config true true).VDD1_OPP then
          sample_services.curr_vdd1_prcm_set w
        else sample_services.curr_vdd2_prcm_set w).opp_id ∧
      ((set_vdd1_level (sample_config true true) sample_services sample_mpu_opps 1 3
          (sample_state 2 2 0 0 0)).2.mem 1).name = ((sample_state 2 2 0 0 0).mem 1).name ∧
      ((set_vdd1_level (sample_config true true) sample_services sample_mpu_opps 1 3
          (sample_state 2 2 0 0 0)).2.mem 1).no_of_users =
        ((sample_state 2 2 0 0 0).mem 1).no_of_users ∧
      (∀ p : Ptr, p ≠ 1 →
        (set_vdd1_level (sample_config true true) sample_services sample_mpu_opps 1 3
          (sample_state 2 2 0 0 0)).2.mem p = (sample_state 2 2 0 0 0).mem p) :=
  ⟨rfl, level_read_back (sample_config true true) sample_services 1 3 0
    (sample_state 2 2 0 0 0) _ 1 sample_mpu_opps sample_mpu_opps sample_l3_opps
    (Or.inl rfl) rfl rfl rfl rfl (Or.inr rfl) (by decide) rfl⟩

/-! ## Notifications and dispatch-layer calls -/

/-- The ways a call on the interconnect domain can end: a fault, no action or
an interconnect-domain transition. -/
theorem resource_set_opp_level_vdd2_cases (c : Config) (x : Services W)
    (target_level : Nat) (flags : Int) (s : State W) (hdist : c.VDD2_OPP ≠ c.VDD1_OPP) :
    resource_set_opp_level c x c.VDD2_OPP target_level flags s = none ∨
    resource_set_opp_level c x c.VDD2_OPP target_level flags s = some (0, s) ∨
    (∃ l3_opps resp, resource_set_opp_level c x c.VDD2_OPP target_level flags s
      = some (set_vdd2_level c x l3_opps resp target_level s)) := by
  unfold resource_set_opp_level
  simp only [if_neg hdist, if_true]
  cases s.vdd2_resp with
  | none => exact Or.inl rfl
  | some resp =>
    simp only []
    split_ifs
    · exact Or.inr (Or.inl rfl)
    · split <;> exact Or.inr (Or.inl rfl)
    · split
      · exact Or.inr (Or.inr ⟨_, _, rfl⟩)
      · exact Or.inr (Or.inl rfl)

/-- The ways a call on neither domain or on the compute domain can end; a call
on neither domain takes no action. -/
theorem resource_set_opp_level_vdd1_cases (c : Config) (x : Services W) (res : Int)
    (target_level : Nat) (flags : Int) (s : State W) (hres : res ≠ c.VDD2_OPP) :
    resource_set_opp_level c x res target_level flags s = none ∨
    resource_set_opp_level c x res target_level flags s = some (0, s) ∨
    (res = c.VDD1_OPP ∧ ∃ mpu_opps resp, resource_set_opp_level c x res target_level flags s
      = some (set_vdd1_level c x mpu_opps resp target_level s)) := by
  unfold resource_set_opp_level
  by_cases h1 : res = c.VDD1_OPP
  · simp only [if_pos h1]
    cases s.vdd1_resp with
    | none => exact Or.inl rfl
    | some resp =>
      simp only []
      split_ifs
      · exact Or.inr (Or.inl rfl)
      · split <;> exact Or.inr (Or.inl rfl)
      · split
        · exact Or.inr (Or.inr ⟨h1, _, _, rfl⟩)
        · exact Or.inr (Or.inl rfl)
  · rw [if_neg h1, if_neg hres]
    exact Or.inr (Or.inl rfl)

/-- An interconnect-domain transition makes clock and voltage calls only. -/
theorem set_vdd2_level_calls (c : Config) (x : Services W) (l3_opps : OppTable) (resp : Ptr)
    (target_level : Nat) (s : State W) :
    ∃ calls : List Event,
      (set_vdd2_level c x l3_opps resp target_level s).2.trace = s.trace ++ calls ∧
      ∀ e ∈ calls, e.is_clk_set_rate = true ∨ e.is_voltagescale = true := by
  refine ⟨_, set_vdd2_level_trace c x l3_opps resp target_level s, ?_⟩
  split_ifs <;> simp [Event.is_clk_set_rate, Event.is_voltagescale]

/-- The dispatch-layer calls of a compute-domain transition name "vdd2_opp". -/
theorem set_vdd1_level_dispatch_calls (c : Config) (x : Services W) (mpu_opps : OppTable)
    (resp : Ptr) (target_level : Nat) (s : State W) :
    ∃ calls : List Event,
      (set_vdd1_level c x mpu_opps resp target_level s).2.trace = s.trace ++ calls ∧
      ∀ e ∈ calls, e.is_resource_request = true ∨ e.is_resource_release = true →
        e = Event.resource_request "vdd2_opp" Device.vdd2_dev 400000 ∨
        e = Event.resource_release "vdd2_opp" Device.vdd2_dev := by
  refine ⟨_, set_vdd1_level_trace c x mpu_opps resp target_level s, ?_⟩
  split_ifs <;> simp [Event.is_resource_request, Event.is_resource_release]


/-- A clock or voltage call is neither a notification nor a dispatch-layer call. -/
theorem clk_or_volt_is_no_other_call (e : Event)
    (h : e.is_clk_set_rate = true ∨ e.is_voltagescale = true) :
    e.is_cpufreq_notify = false ∧ e.is_resource_request = false ∧
      e.is_resource_release = false := by
  cases e <;> simp [Event.is_clk_set_rate, Event.is_voltagescale, Event.is_cpufreq_notify,
    Event.is_resource_request, Event.is_resource_release] at h ⊢

/-- C17 (frequency-change notifications): with `CONFIG_CPU_FREQ` enabled, a call
`resource_set_opp_level(VDD1_OPP, target, flags)` that performs a transition, up
or down, returns 0 and its notifications and clock calls are, in order,
exactly one `CPUFREQ_PRECHANGE` notification, the `clk_set_rate` call and one
`CPUFREQ_POSTCHANGE` notification, both notifications carrying
`old = get_freq(current OPP id) / 1000`, `new = get_freq(target) / 1000` and
cpu 0. A call on `VDD2_OPP` emits no notification, whatever its arguments and
state. -/
theorem cpufreq_notifications_bracket_clock (c : Config) (x : Services W)
    (target_level : Nat) (flags : Int) (s : State W) (resp : Ptr)
    (mpu_opps dsp_opps l3_opps : OppTable)
    (hcf : c.CONFIG_CPU_FREQ = true)
    (hmpu : c.mpu_opps = some mpu_opps) (hdsp : c.dsp_opps = some dsp_opps)
    (hl3 : c.l3_opps = some l3_opps)
    (hresp : s.vdd1_resp = some resp)
    (hne : (s.mem resp).curr_level ≠ target_level)
    (hlock : flags = c.OPP_IGNORE_LOCK ∨ s.vdd1_lock = 0) :
    (∃ (s' : State W) (calls : List Event),
      resource_set_opp_level c x c.VDD1_OPP target_level flags s = some (0, s') ∧
      s'.trace = s.trace ++ calls ∧
      calls.filter (fun e => e.is_cpufreq_notify || e.is_clk_set_rate) =
        [Event.cpufreq_notify_transition
            (c.get_freq mpu_opps c.MAX_VDD1_OPP (x.curr_vdd1_prcm_set s.world).opp_id / 1000)
            (c.get_freq mpu_opps c.MAX_VDD1_OPP target_level / 1000) 0
            CpufreqPhase.CPUFREQ_PRECHANGE,
          Event.clk_set_rate s.vdd1_clk (c.get_freq mpu_opps c.MAX_VDD1_OPP target_level),
          Event.cpufreq_notify_transition
            (c.get_freq mpu_opps c.MAX_VDD1_OPP (x.curr_vdd1_prcm_set s.world).opp_id / 1000)
            (c.get_freq mpu_opps c.MAX_VDD1_OPP target_level / 1000) 0
            CpufreqPhase.CPUFREQ_POSTCHANGE]) ∧
    (c.VDD2_OPP ≠ c.VDD1_OPP →
      ∀ (target2 : Nat) (flags2 : Int) (s2 : State W) (r : Int × State W),
        resource_set_opp_level c x c.VDD2_OPP target2 flags2 s2 = some r →
        ∃ calls : List Event, r.2.trace = s2.trace ++ calls ∧
          calls.filter Event.is_cpufreq_notify = []) := by
  constructor
  · refine ⟨(set_vdd1_level c x mpu_opps resp target_level s).2, _, ?_,
      set_vdd1_level_trace c x mpu_opps resp target_level s, ?_⟩
    · rw [resource_set_opp_level_vdd1 c x target_level flags s resp mpu_opps dsp_opps l3_opps
        hresp hne hmpu hdsp hl3 hlock]
      rfl
    · simp only [hcf, if_true]
      split_ifs <;> rfl
  · intro hdist target2 flags2 s2 r hr
    rcases resource_set_opp_level_vdd2_cases c x target2 flags2 s2 hdist with
      h0 | h0 | ⟨t, p, h0⟩
    · rw [h0] at hr
      exact absurd hr (by simp)
    · rw [h0] at hr
      injection hr with hr
      subst hr
      exact ⟨[], by simp, rfl⟩
    · rw [h0] at hr
      injection hr with hr
      subst hr
      obtain ⟨calls, htr, hall⟩ := set_vdd2_level_calls c x t p target2 s2
      refine ⟨calls, htr, ?_⟩
      rw [List.filter_eq_nil_iff]
      intro e he
      rw [(clk_or_volt_is_no_other_call e (hall e he)).1]
      simp

/-- C17 witness: the sample compute domain at level 3, unlocked, asked for level 2. -/
theorem cpufreq_notifications_bracket_clock_witness :
    (∃ (s' : State SampleWorld) (calls : List Event),
      resource_set_opp_level (sample_config true true) sample_services
        (sample_config true true).VDD1_OPP 2 0 (sample_state 3 3 0 0 0) = some (0, s') ∧
      s'.trace = (sample_state 3 3 0 0 0).trace ++ calls ∧
      calls.filter (fun e => e.is_cpufreq_notify || e.is_clk_set_rate) =
        [Event.cpufreq_notify_transition
            ((sample_config true true).get_freq sample_mpu_opps
              (sample_config true true).MAX_VDD1_OPP
              (sample_services.curr_vdd1_prcm_set (sample_state 3 3 0 0 0).world).opp_id / 1000)
            ((sample_config true true).get_freq sample_mpu_opps
              (sample_config true true).MAX_VDD1_OPP 2 / 1000) 0
            CpufreqPhase.CPUFREQ_PRECHANGE,
          Event.clk_set_rate (sample_state 3 3 0 0 0).vdd1_clk
            ((sample_config true true).get_freq sample_mpu_opps
              (sample_config true true).MAX_VDD1_OPP 2),
          Event.cpufreq_notify_transition
            ((sample_config true true).get_freq sample_mpu_opps
              (sample_config true true).MAX_VDD1_OPP
              (sample_services.curr_vdd1_prcm_set (sample_state 3 3 0 0 0).world).opp_id / 1000)
            ((sample_config true true).get_freq sample_mpu_opps
              (sample_config true true).MAX_VDD1_OPP 2 / 1000) 0
            CpufreqPhase.CPUFREQ_POSTCHANGE]) ∧
    ((sample_config true true).VDD2_OPP ≠ (sample_config true true).VDD1_OPP →
      ∀ (target2 : Nat) (flags2 : Int) (s2 : State SampleWorld) (r : Int × State SampleWorld),
        resource_set_opp_level (sample_config true true) sample_services
          (sample_config true true).VDD2_OPP target2 flags2 s2 = some r →
        ∃ calls : List Event, r.2.trace = s2.trace ++ calls ∧
          calls.filter Event.is_cpufreq_notify = []) :=
  cpufreq_notifications_bracket_clock (sample_config true true) sample_services 2 0
    (sample_state 3 3 0 0 0) 1 sample_mpu_opps sample_mpu_opps sample_l3_opps
    rfl rfl rfl rfl rfl (by decide) (Or.inr rfl)

/-- C18 (no dependency cycle): with `VDD2_OPP` distinct from `VDD1_OPP`, a call
`resource_set_opp_level(VDD2_OPP, target, flags)`, and with it `set_opp` on the
interconnect resource, never issues a `resource_request` or a
`resource_release`, whatever the target, flags and state; and every
`resource_request` or `resource_release` that a call to
`resource_set_opp_level` issues is issued for `res == VDD1_OPP` and is
`resource_request("vdd2_opp", &vdd2_dev, 400000)` or
`resource_release("vdd2_opp", &vdd2_dev)`. -/
theorem no_dependency_cycle (c : Config) (x : Services W)
    (hdist : c.VDD2_OPP ≠ c.VDD1_OPP) :
    (∀ (target_level : Nat) (flags : Int) (s : State W) (r : Int × State W),
      resource_set_opp_level c x c.VDD2_OPP target_level flags s = some r →
      ∃ calls : List Event, r.2.trace = s.trace ++ calls ∧
        ∀ e ∈ calls, e.is_resource_request = false ∧ e.is_resource_release = false) ∧
    (∀ (resp : Ptr) (target_level : Nat) (s : State W) (r : Int × State W),
      some resp ≠ s.vdd1_resp → some resp = s.vdd2_resp →
      set_opp c x resp target_level s = some r →
      ∃ calls : List Event, r.2.trace = s.trace ++ calls ∧
        ∀ e ∈ calls, e.is_resource_request = false ∧ e.is_resource_release = false) ∧
    (∀ (res : Int) (target_level : Nat) (flags : Int) (s : State W) (r : Int × State W),
      resource_set_opp_level c x res target_level flags s = some r →
      ∃ calls : List Event, r.2.trace = s.trace ++ calls ∧
        ∀ e ∈ calls, e.is_resource_request = true ∨ e.is_resource_release = true →
          res = c.VDD1_OPP ∧
          (e = Event.resource_request "vdd2_opp" Device.vdd2_dev 400000 ∨
            e = Event.resource_release "vdd2_opp" Device.vdd2_dev)) := by
  have hvdd2 : ∀ (target_level : Nat) (flags : Int) (s : State W) (r : Int × State W),
      resource_set_opp_level c x c.VDD2_OPP target_level flags s = some r →
      ∃ calls : List Event, r.2.trace = s.trace ++ calls ∧
        ∀ e ∈ calls, e.is_resource_request = false ∧ e.is_resource_release = false := by
    intro target_level flags s r hr
    rcases resource_set_opp_level_vdd2_cases c x target_level flags s hdist with
      h0 | h0 | ⟨t, p, h0⟩
    · rw [h0] at hr
      exact absurd hr (by simp)
    · rw [h0] at hr
      injection hr with hr
      subst hr
      exact ⟨[], by simp, by simp⟩
    · rw [h0] at hr
      injection hr with hr
      subst hr
      obtain ⟨calls, htr, hall⟩ := set_vdd2_level_calls c x t p target_level s
      exact ⟨calls, htr, fun e he => (clk_or_volt_is_no_other_call e (hall e he)).2⟩
  refine ⟨hvdd2, ?_, ?_⟩
  · intro resp target_level s r h1 h2 hr
    unfold set_opp at hr
    rw [if_neg h1, if_pos h2] at hr
    dsimp only at hr
    split at hr
    · exact absurd hr (by simp)
    · simp only [Option.map_eq_some'] at hr
      obtain ⟨r0, hr0, rfl⟩ := hr
      exact hvdd2 _ 0 s r0 hr0
  · intro res target_level flags s r hr
    by_cases h2 : res = c.VDD2_OPP
    · subst h2
      obtain ⟨calls, htr, hall⟩ := hvdd2 target_level flags s r hr
      refine ⟨calls, htr, ?_⟩
      intro e he hk
      have := hall e he
      rw [this.1, this.2] at hk
      simp at hk
    · rcases resource_set_opp_level_vdd1_cases c x res target_level flags s h2 with
        h0 | h0 | ⟨h1, t, p, h0⟩
      · rw [h0] at hr
        exact absurd hr (by simp)
      · rw [h0] at hr
        injection hr with hr
        subst hr
        exact ⟨[], by simp, by simp⟩
      · rw [h0] at hr
        injection hr with hr
        subst hr
        obtain ⟨calls, htr, hall⟩ := set_vdd1_level_dispatch_calls c x t p target_level s
        exact ⟨calls, htr, fun e he hk => ⟨h1, hall e he hk⟩⟩

/-- C18 witness: the sample platform, whose domain identifiers are 1 and 2. -/
theorem no_dependency_cycle_witness :
    (∀ (target_level : Nat) (flags : Int) (s : State SampleWorld) (r : Int × State SampleWorld),
      resource_set_opp_level (sample_config true true) sample_services
        (sample_config true true).VDD2_OPP target_level flags s = some r →
      ∃ calls : List Event, r.2.trace = s.trace ++ calls ∧
        ∀ e ∈ calls, e.is_resource_request = false ∧ e.is_resource_release = false) ∧
    (∀ (resp : Ptr) (target_level : Nat) (s : State SampleWorld) (r : Int × State SampleWorld),
      some resp ≠ s.vdd1_resp → some resp = s.vdd2_resp →
      set_opp (sample_config true true) sample_services resp target_level s = some r →
      ∃ calls : List Event, r.2.trace = s.trace ++ calls ∧
        ∀ e ∈ calls, e.is_resource_request = false ∧ e.is_resource_release = false) ∧
    (∀ (res : Int) (target_level : Nat) (flags : Int) (s : State SampleWorld)
        (r : Int × State SampleWorld),
      resource_set_opp_level (sample_config true true) sample_services res target_level flags s
        = some r →
      ∃ calls : List Event, r.2.trace = s.trace ++ calls ∧
        ∀ e ∈ calls, e.is_resource_request = true ∨ e.is_resource_release = true →
          res = (sample_config true true).VDD1_OPP ∧
          (e = Event.resource_request "vdd2_opp" Device.vdd2_dev 400000 ∨
            e = Event.resource_release "vdd2_opp" Device.vdd2_dev)) :=
  no_dependency_cycle (sample_config true true) sample_services (by decide)

/-! ## Registration flag -/

/-- Replaying two lists of events one after the other. -/
theorem qos_protocol_append (l1 l2 : List Event) :
    ∀ registered : Bool,
      qos_protocol registered (l1 ++ l2) =
        (qos_protocol registered l1).bind (fun b => qos_protocol b l2) := by
  induction l1 with
  | nil =>
    intro registered
    rfl
  | cons e l1 ih =>
    intro registered
    cases e <;> cases registered <;> simp [qos_protocol, ih]

/-- What `init_latency` leaves behind: flag clear, default level, trace untouched. -/
theorem init_latency_state (c : Config) (resp : Ptr) (s0 s1 : State W)
    (h : init_latency c resp s0 = some s1) :
    (s1.mem resp).resource_data = ResourceData.byte 0 ∧
    (s1.mem resp).curr_level = c.RES_DEFAULTLEVEL ∧
    s1.trace = s0.trace := by
  unfold init_latency at h
  dsimp only at h
  split at h
  · injection h with h
    subst h
    simp [State.set_resource_data, State.set_curr_level, State.set_no_of_users]
  · exact absurd h (by simp)

/-- One `set_latency` call keeps the flag in step with the level and follows
the registration protocol. -/
theorem set_latency_keeps_flag (c : Config) (x : Services W) (resp : Ptr) (latency : Nat)
    (s : State W) (flag : Nat)
    (hdata : (s.mem resp).resource_data = ResourceData.byte flag)
    (hinv : flag ≠ 0 ↔ (s.mem resp).curr_level ≠ c.RES_DEFAULTLEVEL) :
    ∃ (r : Int) (s' : State W) (flag' : Nat) (calls : List Event),
      set_latency c x resp latency s = some (r, s') ∧
      (s'.mem resp).resource_data = ResourceData.byte flag' ∧
      (flag' ≠ 0 ↔ (s'.mem resp).curr_level ≠ c.RES_DEFAULTLEVEL) ∧
      s'.trace = s.trace ++ calls ∧
      qos_protocol (decide (flag ≠ 0)) calls = some (decide (flag' ≠ 0)) := by
  by_cases heq : (s.mem resp).curr_level = latency
  · refine ⟨0, s, flag, [], ?_, hdata, hinv, by simp, rfl⟩
    simp only [set_latency, if_pos heq]
  · obtain ⟨r, s', hrun, hlvl, ha, hb, hc⟩ :=
      set_latency_transitions c x resp latency s flag hdata heq
    by_cases hflag : flag = 0
    · obtain ⟨_, htr, hd⟩ := hc hflag
      have hcur : (s.mem resp).curr_level = c.RES_DEFAULTLEVEL := by
        by_contra hcon
        exact (hinv.mpr hcon) hflag
      have hl : latency ≠ c.RES_DEFAULTLEVEL := fun h => heq (hcur.trans h.symm)
      refine ⟨r, s', 1, _, hrun, hd, ?_, htr, ?_⟩
      · rw [hlvl]
        simp [hl]
      · simp [hflag, qos_protocol]
    · by_cases hdef : latency = c.RES_DEFAULTLEVEL
      · obtain ⟨_, htr, hd⟩ := ha ⟨hdef, hflag⟩
        refine ⟨r, s', 0, _, hrun, hd, ?_, htr, ?_⟩
        · rw [hlvl]
          simp [hdef]
        · simp [hflag, qos_protocol]
      · obtain ⟨_, htr, hd⟩ := hb ⟨hdef, hflag⟩
        refine ⟨r, s', flag, _, hrun, hd, ?_, htr, ?_⟩
        · rw [hlvl]
          simp [hdef, hflag]
        · simp [hflag, qos_protocol]

/-- A sequence of `set_latency` calls on one resource never faults, keeps the
flag in step with the level and follows the registration protocol. -/
theorem set_latency_sequence (c : Config) (x : Services W) (resp : Ptr) :
    ∀ (lats : List Nat) (s : State W) (flag : Nat),
      (s.mem resp).resource_data = ResourceData.byte flag →
      (flag ≠ 0 ↔ (s.mem resp).curr_level ≠ c.RES_DEFAULTLEVEL) →
      ∃ (s' : State W) (flag' : Nat) (calls : List Event),
        run_ops c x (lats.map (Op.set_latency resp)) s = some s' ∧
        (s'.mem resp).resource_data = ResourceData.byte flag' ∧
        (flag' ≠ 0 ↔ (s'.mem resp).curr_level ≠ c.RES_DEFAULTLEVEL) ∧
        s'.trace = s.trace ++ calls ∧
        qos_protocol (decide (flag ≠ 0)) calls = some (decide (flag' ≠ 0)) := by
  intro lats
  induction lats with
  | nil =>
    intro s flag hdata hinv
    exact ⟨s, flag, [], rfl, hdata, hinv, by simp, rfl⟩
  | cons l lats ih =>
    intro s flag hdata hinv
    obtain ⟨r, s1, flag1, calls1, hrun1, hdata1, hinv1, htr1, hp1⟩ :=
      set_latency_keeps_flag c x resp l s flag hdata hinv
    obtain ⟨s2, flag2, calls2, hrun2, hdata2, hinv2, htr2, hp2⟩ := ih s1 flag1 hdata1 hinv1
    refine ⟨s2, flag2, calls1 ++ calls2, ?_, hdata2, hinv2, ?_, ?_⟩
    · simp only [List.map_cons, run_ops, Op.run, hrun1, Option.map_some', Option.some_bind]
      exact hrun2
    · rw [htr2, htr1, List.append_assoc]
    · rw [qos_protocol_append, hp1]
      exact hp2

/-- C19 (registration flag invariant): from the state `init_latency` leaves, every
sequence of `set_latency` calls on that resource, with arbitrary latencies and
arbitrary outcomes of the QoS service, runs to a state in which the added-flag
is set if and only if `curr_level != RES_DEFAULTLEVEL`; and the QoS calls it
made follow the registration protocol from "none registered":
`pm_qos_add_requirement` is never called while a registration is recorded,
`pm_qos_remove_requirement` and `pm_qos_update_requirement` never while none is. -/
theorem latency_flag_invariant (c : Config) (x : Services W) (resp : Ptr) (lats : List Nat)
    (s0 s1 : State W)
    (hinit : init_latency c resp s0 = some s1) :
    ∃ (s : State W) (flag : Nat) (calls : List Event),
      run_ops c x (lats.map (Op.set_latency resp)) s1 = some s ∧
      (s.mem resp).resource_data = ResourceData.byte flag ∧
      (flag ≠ 0 ↔ (s.mem resp).curr_level ≠ c.RES_DEFAULTLEVEL) ∧
      s.trace = s1.trace ++ calls ∧
      qos_protocol false calls = some (decide (flag ≠ 0)) := by
  obtain ⟨hd, hl, _⟩ := init_latency_state c resp s0 s1 hinit
  have hinv : (0 : Nat) ≠ 0 ↔ (s1.mem resp).curr_level ≠ c.RES_DEFAULTLEVEL := by
    rw [hl]
    simp
  obtain ⟨s, flag, calls, h1, h2, h3, h4, h5⟩ :=
    set_latency_sequence c x resp lats s1 0 hd hinv
  exact ⟨s, flag, calls, h1, h2, h3, h4, by simpa using h5⟩

/-- C19 witness: the sample latency record initialised, then asked for 100, 100,
50, the default level 0, and 70. -/
theorem latency_flag_invariant_witness :
    ∃ s1 : State SampleWorld,
      init_latency (sample_config true true) 3 (sample_state 0 0 0 0 0) = some s1 ∧
      ∃ (s : State SampleWorld) (flag : Nat) (calls : List Event),
        run_ops (sample_config true true) sample_services
          ([100, 100, 50, 0, 70].map (Op.set_latency 3)) s1 = some s ∧
        (s.mem 3).resource_data = ResourceData.byte flag ∧
        (flag ≠ 0 ↔ (s.mem 3).curr_level ≠ (sample_config true true).RES_DEFAULTLEVEL) ∧
        s.trace = s1.trace ++ calls ∧
        qos_protocol false calls = some (decide (flag ≠ 0)) :=
  ⟨_, rfl, latency_flag_invariant (sample_config true true) sample_services 3
    [100, 100, 50, 0, 70] (sample_state 0 0 0 0 0) _ rfl⟩

/-! ## Outcome of `set_opp` -/

/-- A call to the level controller returns when the resource pointer it
dereferences is set. -/
theorem resource_set_opp_level_returns (c : Config) (x : Services W) (res : Int)
    (target_level : Nat) (flags : Int) (s : State W) (resp : Ptr)
    (hresp : s.domain_resp c res = some resp) :
    ∃ r : Int × State W, resource_set_opp_level c x res target_level flags s = some r := by
  unfold resource_set_opp_level
  by_cases h1 : res = c.VDD1_OPP
  · simp only [State.domain_resp, if_pos h1] at hresp
    simp only [if_pos h1, hresp]
    split_ifs
    · exact ⟨_, rfl⟩
    · split <;> exact ⟨_, rfl⟩
    · split <;> exact ⟨_, rfl⟩
  · simp only [State.domain_resp, if_neg h1] at hresp
    simp only [if_neg h1]
    by_cases h2 : res = c.VDD2_OPP
    · simp only [if_pos h2, hresp]
      split_ifs
      · exact ⟨_, rfl⟩
      · split <;> exact ⟨_, rfl⟩
      · split <;> exact ⟨_, rfl⟩
    · simp only [if_neg h2]
      exact ⟨_, rfl⟩

/-- C20 (outcome of `set_opp`): with `VDD2_OPP` distinct from `VDD1_OPP`, and the
interconnect table loaded whenever `resp` is the interconnect resource,
`set_opp` returns 0 for every resource and target, whatever
`resource_set_opp_level` returned to it; and when `resp` is neither `vdd1_resp`
nor `vdd2_resp` the state, trace included, is left unchanged. -/
theorem set_opp_returns_zero (c : Config) (x : Services W) (resp : Ptr) (target_level : Nat)
    (s : State W)
    (hdist : c.VDD2_OPP ≠ c.VDD1_OPP)
    (htbl : some resp = s.vdd2_resp → ∃ l3_opps : OppTable, c.l3_opps = some l3_opps) :
    (∃ s' : State W, set_opp c x resp target_level s = some (0, s')) ∧
    (some resp ≠ s.vdd1_resp → some resp ≠ s.vdd2_resp →
      set_opp c x resp target_level s = some (0, s)) := by
  constructor
  · unfold set_opp
    by_cases h1 : some resp = s.vdd1_resp
    · rw [if_pos h1]
      have hr : s.domain_resp c c.VDD1_OPP = some resp := by
        simp only [State.domain_resp, if_true]
        exact h1.symm
      obtain ⟨r, hrr⟩ := resource_set_opp_level_returns c x c.VDD1_OPP target_level 0 s resp hr
      exact ⟨r.2, by rw [hrr]; rfl⟩
    · rw [if_neg h1]
      by_cases h2 : some resp = s.vdd2_resp
      · rw [if_pos h2]
        have hr : s.domain_resp c c.VDD2_OPP = some resp := by
          simp only [State.domain_resp, if_neg hdist]
          exact h2.symm
        obtain ⟨l3_opps, hl3⟩ := htbl h2
        dsimp only
        rw [hl3]
        rcases set_opp_scan_spec l3_opps (wrap_ulong (target_level * 1000) / 4)
            (c.MAX_VDD2_OPP + 1 - 2) 2 target_level with ⟨i, _, _, _, _, hi⟩ | ⟨_, hn⟩
        · rw [hi]
          dsimp only
          obtain ⟨r, hrr⟩ := resource_set_opp_level_returns c x c.VDD2_OPP
            (if i > c.MAX_VDD2_OPP then i - 1 else i) 0 s resp hr
          exact ⟨r.2, by rw [hrr]; rfl⟩
        · rw [hn]
          dsimp only
          obtain ⟨r, hrr⟩ := resource_set_opp_level_returns c x c.VDD2_OPP
            (if 2 + (c.MAX_VDD2_OPP + 1 - 2) > c.MAX_VDD2_OPP then
              2 + (c.MAX_VDD2_OPP + 1 - 2) - 1 else target_level) 0 s resp hr
          exact ⟨r.2, by rw [hrr]; rfl⟩
      · rw [if_neg h2]
        exact ⟨s, rfl⟩
  · intro h1 h2
    simp only [set_opp, if_neg h1, if_neg h2]

/-- C20 witness: on the sample platform with a clock that fails with -5, the
interconnect resource at level 2 is asked for throughput 400000; the delegated
call for level 3 returns -5 and `set_opp` returns 0. -/
theorem set_opp_returns_zero_witness :
    (resource_set_opp_level (sample_config true true) sample_services 2 3 0
        (sample_state 3 2 0 0 (-5))).map Prod.fst = some (-5) ∧
    (set_opp (sample_config true true) sample_services 2 400000
        (sample_state 3 2 0 0 (-5))).map (fun r => r.2.trace) =
      (resource_set_opp_level (sample_config true true) sample_services 2 3 0
        (sample_state 3 2 0 0 (-5))).map (fun r => r.2.trace) ∧
    (∃ s' : State SampleWorld,
      set_opp (sample_config true true) sample_services 2 400000
        (sample_state 3 2 0 0 (-5)) = some (0, s')) ∧
    (some 2 ≠ (sample_state 3 2 0 0 (-5)).vdd1_resp →
      some 2 ≠ (sample_state 3 2 0 0 (-5)).vdd2_resp →
      set_opp (sample_config true true) sample_services 2 400000
        (sample_state 3 2 0 0 (-5)) = some (0, sample_state 3 2 0 0 (-5))) :=
  ⟨rfl, rfl, set_opp_returns_zero (sample_config true true) sample_services 2 400000
    (sample_state 3 2 0 0 (-5)) (by decide) (fun _ => ⟨sample_l3_opps, rfl⟩)⟩

/-- C14 witness: the sample frequency record, named "mpu_freq", asked for 250 MHz,
which the sample `get_opp` maps to OPP 2. -/
theorem set_freq_requests_witness :
    (set_freq (sample_config true true) sample_services 5 250000000
        (sample_state 2 2 0 0 0)).1 = 0 ∧
    (set_freq (sample_config true true) sample_services 5 250000000
        (sample_state 2 2 0 0 0)).2.trace = (sample_state 2 2 0 0 0).trace ++
      [Event.resource_request "vdd1_opp" Device.dummy_mpu_dev
        ((sample_config true true).get_opp sample_mpu_opps
          (sample_config true true).MAX_VDD1_OPP 250000000)] ∧
    ((set_freq (sample_config true true) sample_services 5 250000000
        (sample_state 2 2 0 0 0)).2.mem 5).curr_level = 250000000 :=
  ((set_freq_requests (sample_config true true) sample_services 5 250000000
    (sample_state 2 2 0 0 0)).1 sample_mpu_opps sample_mpu_opps rfl rfl).1 rfl

end Resource34xx
